import Mathlib

/-!
# SIGMA client-side code

A shallow embedding of the client-side code of SIGMA and the properties of it
that the specification states: the log buffering and delivery code
(`src/loggingUtils.js`), the application state and role check
(`src/stateManager.js`, `src/auth.js`), and the Firebase utilities
(`src/firebaseUtils.js`, `src/testFirebase.js`).

Modelling conventions.

* The embedding is of the browser execution (`typeof document !== 'undefined'`),
  so the early-return guards of `_log`, `_enqueueLog`, `_processPendingLogs`
  and `initLogging` never fire.
* Scope.  `logQueue`, `isConnected` and `MAX_QUEUE_SIZE` are declared with
  `const` / `let` inside the block `if (typeof document !== 'undefined') { ... }`
  of `loggingUtils.js` (lines 10-22) and are visible in that block only.  The
  functions of the file are declared outside the block, so in their bodies
  these identifiers resolve against the global scope.  Nothing declares
  `logQueue` or `MAX_QUEUE_SIZE` there and no statement assigns to them:
  evaluating either throws a `ReferenceError`.  `isConnected` is assigned by
  the handlers and listeners; the scripts are not in strict mode, so such an
  assignment creates a property `isConnected` of the global object, which
  later reads find.  Until an assignment has run, reading `isConnected` throws
  a `ReferenceError`.
* `google.script.run` is asynchronous: a call is only issued, and its success
  or failure handler runs later, as an event of its own.  The same holds for
  the promises of the Firebase SDK.
* The operations of `localStorage` may throw; whether they do during one call
  is an input (`Host`).
* A JavaScript call either returns or throws (`Completion`); the state it
  leaves is kept in both cases.
-/

namespace SigmaBG

/-! ## Data model -/

/-- A JavaScript number: a finite one, `mantissa × 2 ^ exponent`, or `NaN`, or
an infinity. -/
inductive JsNumber where
  | finite (mantissa : Int) (exponent : Int)
  | nan
  | infinity (negative : Bool)
  deriving DecidableEq, Repr

/-- JavaScript values passed as the `data` / `error` argument of a log call. -/
inductive JsValue where
  | null
  | bool (b : Bool)
  | num (n : JsNumber)
  | str (s : String)
  | nativeError (name message stack : String)
  | object (fields : List (String × String))
  deriving DecidableEq, Repr

/-- The number value of an integer. -/
def JsValue.int (n : Int) : JsValue := .num (.finite n 0)

/-- The six properties of the object literal built in `_log`. -/
structure LogEntry where
  level : String
  message : String
  data : JsValue
  timestamp : String
  url : String
  userAgent : String
  deriving DecidableEq, Repr

/-- An element of a stored JSON array: an entry object, or any other value. -/
inductive StoredItem where
  | entry (e : LogEntry)
  | other (v : JsValue)
  deriving DecidableEq, Repr

/-- Content of the `localStorage` slot `'SIGMA_LOG_QUEUE'` when the key is
present, by what the `try` block of `_processPendingLogs` does with it. -/
inductive Stored where
  /-- the empty string: falsy, so `if (storedLogs)` skips the block -/
  | blank
  /-- a text that `JSON.parse` rejects -/
  | corrupt (text : String)
  /-- the text `null`: reading `parsedLogs.length` throws a `TypeError` -/
  | jsonNull
  /-- valid JSON other than an array whose `length` is not greater than 0 (a
  number, a boolean, an object without such a property, the empty string
  literal): the loop is skipped -/
  | lengthless
  /-- valid JSON other than an array whose `length` is greater than 0 (a
  non-empty string literal, an object with such a property): `parsedLogs.shift`
  is not a function -/
  | unshiftable
  /-- the JSON text of an array -/
  | array (items : List StoredItem)
  deriving DecidableEq, Repr

/-- The JSON text of an array of entry objects. -/
def Stored.entries (l : List LogEntry) : Stored := .array (l.map .entry)

/-- What the host environment does during one call: which storage operations
throw, and the values read by `_log` (`new Date().toISOString()`,
`window.location.href`, `navigator.userAgent`). -/
structure Host where
  getItemThrows : Bool
  setItemThrows : Bool
  removeItemThrows : Bool
  timestamp : String
  url : String
  userAgent : String
  deriving DecidableEq, Repr

/-- How a JavaScript call ends. -/
inductive Completion where
  | normal
  | thrown (what : String)
  deriving DecidableEq, Repr

/-- The constant `const MAX_QUEUE_SIZE = 100;` of the block of lines 10-22. -/
def MAX_QUEUE_SIZE : Nat := 100

/-- State of the logging code and of what it has done to its environment.

`logQueue` and `isConnected` are the variables of the block of lines 10-22;
no statement outside the block can reach them.  `globalIsConnected` is the
property `isConnected` of the global object: `none` while no assignment has
created it.  `slot` is `localStorage['SIGMA_LOG_QUEUE']`; `listeners` counts
the registrations of the `'online'` / `'offline'` listeners by `initLogging`;
`outstanding` are the `logFromClient` calls issued whose handler has not run
yet.  `issued`, `acked`, `created` and `console` are histories: every call
issued, every entry whose success handler ran, every entry object built by
`_log`, and the first argument of every console call. -/
structure LogState where
  logQueue : List LogEntry
  isConnected : Bool
  globalIsConnected : Option Bool
  slot : Option Stored
  listeners : Nat
  outstanding : List LogEntry
  issued : List LogEntry
  acked : List LogEntry
  created : List LogEntry
  console : List String
  deriving DecidableEq, Repr

/-- State at page load, once the block of lines 10-22 has run: `const logQueue
= []; let isConnected = true;`, no global `isConnected`, no listener, and
whatever an earlier page left in the storage slot. -/
def initialState (slot : Option Stored) : LogState :=
  { logQueue := [], isConnected := true, globalIsConnected := none, slot := slot,
    listeners := 0, outstanding := [], issued := [], acked := [], created := [],
    console := [] }

/-- A JavaScript statement or call acting on the state. -/
abbrev Js := LogState → Completion × LogState

/-- Sequencing `a; b`: `b` runs only if `a` returns. -/
def Js.andThen (a b : Js) : Js := fun s =>
  match a s with
  | (.normal, s1) => b s1
  | (.thrown w, s1) => (.thrown w, s1)

/-- The statement `try { a } catch (e) { handler(e) }`. -/
def Js.tryCatch (a : Js) (handler : String → Js) : Js := fun s =>
  match a s with
  | (.normal, s1) => (.normal, s1)
  | (.thrown w, s1) => handler w s1

/-- A call of `console.log` / `console.warn` / `console.error`. -/
def consoleWrite (line : String) : Js := fun s =>
  (.normal, { s with console := s.console ++ [line] })

/-- Evaluating the identifier `logQueue` outside the block of lines 10-22. -/
def logQueueOutOfScope : Js := fun s =>
  (.thrown "ReferenceError: logQueue is not defined", s)

/-- The assignment `isConnected = value` outside the block of lines 10-22: it
sets the property of the global object, creating it if need be. -/
def assignIsConnected (value : Bool) : Js := fun s =>
  (.normal, { s with globalIsConnected := some value })

/-! ## The functions of `loggingUtils.js` -/

/-- The function `_sendLogToServer(logEntry)`: issues the `logFromClient` call with its two
handlers; nothing else happens until one of the handlers runs. -/
def _sendLogToServer (logEntry : LogEntry) : Js := fun s =>
  (.normal, { s with outstanding := s.outstanding ++ [logEntry],
                     issued := s.issued ++ [logEntry] })

/-- The function `_enqueueLog(logEntry)`.  Its first statement, `if
(logQueue.length >= MAX_QUEUE_SIZE)` (line 149), evaluates `logQueue`, which
throws; the `shift`, the `push` and the `try` block with `setItem` that follow
are never reached. -/
def _enqueueLog (_logEntry : LogEntry) : Js := logQueueOutOfScope

/-- The call `localStorage.removeItem('SIGMA_LOG_QUEUE')`. -/
def removeStored (h : Host) : Js := fun s =>
  if h.removeItemThrows then (.thrown "removeItem", s)
  else (.normal, { s with slot := none })

/-- The body of the `try` block of `_processPendingLogs`: `getItem`, then, for a
truthy text, `JSON.parse`, the merge loop and `removeItem`.  The first turn of
the merge loop removes the first element of the parsed array (a local
object) and evaluates `logQueue.indexOf(oldLog)` (line 181), which throws; so
the loop body either does not run or throws, and nothing is pushed. -/
def restoreStored (h : Host) : Js := fun s =>
  if h.getItemThrows then (.thrown "getItem", s)
  else
    match s.slot with
    | none => (.normal, s)
    | some .blank => (.normal, s)
    | some (.corrupt _) => (.thrown "SyntaxError", s)
    | some .jsonNull => (.thrown "TypeError: parsedLogs is null", s)
    | some .lengthless => removeStored h s
    | some .unshiftable => (.thrown "TypeError: parsedLogs.shift is not a function", s)
    | some (.array []) => removeStored h s
    | some (.array (_ :: _)) => logQueueOutOfScope s

/-- The `try` / `catch` statement of `_processPendingLogs`. -/
def reconcile (h : Host) : Js :=
  Js.tryCatch (restoreStored h)
    (fun _ => consoleWrite "Erreur lors de la récupération des logs stockés:")

/-- The function `_processPendingLogs()`: the `try` / `catch` statement, then the
loop `while (logQueue.length > 0 && isConnected)` (line 194), whose condition
evaluates `logQueue` first and throws; the loop body is never reached. -/
def _processPendingLogs (h : Host) : Js :=
  Js.andThen (reconcile h) logQueueOutOfScope

/-- The function `_log(level, message, data)`: builds the entry object, then
evaluates `isConnected` (line 110). -/
def _log (h : Host) (level message : String) (data : JsValue) : Js := fun s =>
  let logEntry : LogEntry :=
    { level := level, message := message, data := data,
      timestamp := h.timestamp, url := h.url, userAgent := h.userAgent }
  let s1 : LogState := { s with created := s.created ++ [logEntry] }
  match s1.globalIsConnected with
  | none => (.thrown "ReferenceError: isConnected is not defined", s1)
  | some true => _sendLogToServer logEntry s1
  | some false => _enqueueLog logEntry s1

/-- The function `logInfo(message, data = null)`; `none` is an omitted argument. -/
def logInfo (h : Host) (message : String) (data : Option JsValue) : Js :=
  Js.andThen (consoleWrite ("[INFO] " ++ message))
    (_log h "INFO" message (data.getD .null))

/-- The function `logWarning(message, data = null)`; `none` is an omitted argument. -/
def logWarning (h : Host) (message : String) (data : Option JsValue) : Js :=
  Js.andThen (consoleWrite ("[WARNING] " ++ message))
    (_log h "WARNING" message (data.getD .null))

/-- The `data` that `logError` computes from its `error` argument. -/
def errorData : JsValue → JsValue
  | .nativeError name message stack =>
    .object [("name", name), ("message", message), ("stack", stack)]
  | .null => .null
  | error => error

/-- The function `logError(message, error = null)`; `none` is an omitted argument. -/
def logError (h : Host) (message : String) (error : Option JsValue) : Js :=
  Js.andThen (consoleWrite ("[ERROR] " ++ message))
    (_log h "ERROR" message (errorData (error.getD .null)))

/-- The success handler given to `withSuccessHandler` in `_sendLogToServer`,
run for the outstanding call at position `i`: `if (!isConnected) { isConnected
= true; _processPendingLogs(); }`. -/
def successHandler (h : Host) (i : Nat) : Js := fun s =>
  match s.outstanding.get? i with
  | none => (.normal, s)
  | some logEntry =>
    let s1 : LogState :=
      { s with outstanding := s.outstanding.eraseIdx i,
               acked := s.acked ++ [logEntry] }
    match s1.globalIsConnected with
    | none => (.thrown "ReferenceError: isConnected is not defined", s1)
    | some true => (.normal, s1)
    | some false => Js.andThen (assignIsConnected true) (_processPendingLogs h) s1

/-- The failure handler given to `withFailureHandler` in `_sendLogToServer`,
run for the outstanding call at position `i`: `isConnected = false;
_enqueueLog(logEntry); console.error(...)`. -/
def failureHandler (i : Nat) : Js := fun s =>
  match s.outstanding.get? i with
  | none => (.normal, s)
  | some logEntry =>
    let s1 : LogState := { s with outstanding := s.outstanding.eraseIdx i }
    Js.andThen (assignIsConnected false)
      (Js.andThen (_enqueueLog logEntry)
        (consoleWrite "Erreur d'envoi de log au serveur:")) s1

/-- The listener of the `'online'` event that `initLogging` registers:
`isConnected = true; _processPendingLogs();`. -/
def onOnline (h : Host) : Js :=
  Js.andThen (assignIsConnected true) (_processPendingLogs h)

/-- The listener of the `'offline'` event that `initLogging` registers:
`isConnected = false;`. -/
def onOffline : Js := assignIsConnected false

/-- The two calls of `window.addEventListener` in `initLogging`. -/
def registerListeners : Js := fun s =>
  (.normal, { s with listeners := s.listeners + 1 })

/-- The function `initLogging()`: `_processPendingLogs()`, then the registration
of the two listeners, then `logInfo('Système de logging initialisé')`. -/
def initLogging (h : Host) : Js :=
  Js.andThen (_processPendingLogs h)
    (Js.andThen registerListeners
      (logInfo h "Système de logging initialisé" none))

/-- The browser dispatching an event to `n` registered copies of a listener:
each runs in turn, and an exception thrown by one is reported by the browser
and does not reach the others. -/
def dispatch (listener : Js) : Nat → LogState → LogState
  | 0, s => s
  | n + 1, s => dispatch listener n (listener s).2

/-! ## Executions -/

/-- The three public logging functions. -/
inductive LogFunction where
  | logInfo
  | logWarning
  | logError
  deriving DecidableEq, Repr

/-- One call of `logInfo`, `logWarning` or `logError`: the function, the host
behaviour during the call, the message and the second argument (`none` when
omitted). -/
structure RecordCall where
  fn : LogFunction
  host : Host
  message : String
  arg : Option JsValue
  deriving DecidableEq, Repr

/-- The call itself. -/
def RecordCall.call (c : RecordCall) : Js :=
  match c.fn with
  | .logInfo => logInfo c.host c.message c.arg
  | .logWarning => logWarning c.host c.message c.arg
  | .logError => logError c.host c.message c.arg

/-- What can happen to the logging code: a call of a logging function, the
endpoint answering the outstanding call at position `i` with a success or a
failure (the matching handler runs, if there is such a call), the `'online'`
and `'offline'` signals of the browser (the registered listeners run, if
any), and runs of `initLogging` and `_processPendingLogs`. -/
inductive Event where
  | record (c : RecordCall)
  | success (h : Host) (i : Nat)
  | failure (i : Nat)
  | online (h : Host)
  | offline
  | initLogging (h : Host)
  | processPendingLogs (h : Host)
  deriving DecidableEq, Repr

/-- State after an event. -/
def step (s : LogState) : Event → LogState
  | .record c => (c.call s).2
  | .success h i => (successHandler h i s).2
  | .failure i => (failureHandler i s).2
  | .online h => dispatch (onOnline h) s.listeners s
  | .offline => dispatch onOffline s.listeners s
  | .initLogging h => (SigmaBG.initLogging h s).2
  | .processPendingLogs h => (_processPendingLogs h s).2

/-- State after a sequence of events. -/
def run (s : LogState) (es : List Event) : LogState := es.foldl step s

/-! ## Vocabulary of the statements -/

/-- The level string a logging function passes to `_log`. -/
def LogFunction.level : LogFunction → String
  | .logInfo => "INFO"
  | .logWarning => "WARNING"
  | .logError => "ERROR"

/-- The entry a call builds, read off the call's arguments. -/
def RecordCall.entry (c : RecordCall) : LogEntry :=
  { level := c.fn.level, message := c.message,
    data := (match c.fn with
      | .logError => errorData (c.arg.getD .null)
      | _ => c.arg.getD .null),
    timestamp := c.host.timestamp, url := c.host.url,
    userAgent := c.host.userAgent }

/-- The line a call writes to the console. -/
def RecordCall.consoleLine (c : RecordCall) : String :=
  match c.fn with
  | .logInfo => "[INFO] " ++ c.message
  | .logWarning => "[WARNING] " ++ c.message
  | .logError => "[ERROR] " ++ c.message

/-- The exception of a logging call made while no global `isConnected` exists. -/
def isConnectedError : Completion :=
  .thrown "ReferenceError: isConnected is not defined"

/-- The exception of a statement that evaluates `logQueue`. -/
def logQueueError : Completion :=
  .thrown "ReferenceError: logQueue is not defined"

/-- A host whose storage works, with fixed clock and page. -/
def quietHost : Host :=
  { getItemThrows := false, setItemThrows := false, removeItemThrows := false,
    timestamp := "t", url := "u", userAgent := "a" }

/-- A host on which `removeItem` throws. -/
def removalFailsHost : Host := { quietHost with removeItemThrows := true }

/-- A host without usable storage: every operation throws. -/
def noStorageHost : Host :=
  { quietHost with getItemThrows := true, setItemThrows := true,
                   removeItemThrows := true }

/-- The call `logInfo('entry', i)`. -/
def numberedCall (i : Nat) : RecordCall :=
  { fn := .logInfo, host := quietHost, message := "entry", arg := some (.int i) }

/-- The call `logError('boom', new Error('x'))`. -/
def boomCall : RecordCall :=
  { fn := .logError, host := quietHost, message := "boom",
    arg := some (.nativeError "Error" "x" "Error: x") }

/-- Page load (`DOMContentLoaded` runs `initLogging`), then the browser goes
offline, three entries are logged, the browser comes back online, and the
endpoint answers: a failure for the second call, successes for the others. -/
def threeLoggedOffline : List Event :=
  [.initLogging quietHost, .offline,
   .record (numberedCall 1), .record (numberedCall 2), .record (numberedCall 3),
   .online quietHost, .success quietHost 0, .failure 0, .success quietHost 0]

/-- Three entries left in the storage slot by an earlier page. -/
def threeStored : Stored :=
  Stored.entries [(numberedCall 1).entry, (numberedCall 2).entry, (numberedCall 3).entry]

/-- The browser goes offline, then 105 distinct entries are logged. -/
def hundredFiveOffline : List Event :=
  .offline :: (List.range 105).map fun i => .record (numberedCall i)

/-- Page load, then the browser goes offline, two entries are logged, and the
browser comes back online. -/
def reconnection : List Event :=
  [.initLogging quietHost, .offline, .record (numberedCall 1),
   .record (numberedCall 2), .online quietHost]

/-- Page load, then the browser goes offline and one entry is logged. -/
def loggedOffline : List Event :=
  [.initLogging quietHost, .offline, .record (numberedCall 1)]

/-- Two entries are logged; the endpoint answers the first call with a failure
and the second with a success. -/
def failureThenSuccess : List Event :=
  [.record (numberedCall 1), .record (numberedCall 2), .failure 0,
   .success quietHost 0]

/-- A page that finds an unreadable text in the storage slot. -/
def corruptAtStartup : LogState := initialState (some (Stored.corrupt "not json"))

/-! ## Application state and roles (`stateManager.js`, `auth.js`)

A property that can be `undefined` is an `Option JsValue`, `none` standing for
`undefined` (the property is absent, or was assigned `undefined`). -/

/-- JavaScript truthiness of a value (`!!v`). -/
def JsValue.truthy : JsValue → Bool
  | .null => false
  | .bool b => b
  | .num (.finite mantissa _) => mantissa != 0
  | .num .nan => false
  | .num (.infinity _) => true
  | .str s => s != ""
  | .nativeError _ _ _ => true
  | .object _ => true

/-- Truthiness of a value that may be `undefined`. -/
def truthy : Option JsValue → Bool
  | none => false
  | some v => v.truthy

/-- The object `{ uid, email, displayName, photoURL }` that the
`onAuthStateChanged` listener stores in `appState.user`; `none` is `null`. -/
structure UserInfo where
  uid : String
  email : Option String
  displayName : Option String
  photoURL : Option String
  deriving DecidableEq, Repr

/-- The global `appState`.  `user` is `null` (`none`) or the user object;
`userRole` is not a property of the initial object, so it starts `undefined`. -/
structure AppState where
  currentPage : String
  user : Option UserInfo
  userRole : Option JsValue
  deriving DecidableEq, Repr

/-- The object literal `const appState = { currentPage: 'dashboard', user: null }`. -/
def appState : AppState :=
  { currentPage := "dashboard", user := none, userRole := none }

/-- The argument of `updateState`: for each property, `none` when the object
literal does not mention it, `some v` when it assigns `v`. -/
structure StateChanges where
  currentPage : Option String
  user : Option (Option UserInfo)
  userRole : Option (Option JsValue)
  deriving DecidableEq, Repr

/-- The function `updateState(stateChanges)`: `Object.assign(appState,
stateChanges)` (the `updateUI()` that follows only writes to the console). -/
def updateState (stateChanges : StateChanges) (a : AppState) : AppState :=
  { currentPage := stateChanges.currentPage.getD a.currentPage,
    user := stateChanges.user.getD a.user,
    userRole := stateChanges.userRole.getD a.userRole }

/-- The function `hasRole(requiredRole)`, reading `appState.userRole`. -/
def hasRole (a : AppState) (requiredRole : Option JsValue) : Bool :=
  let userRole := a.userRole
  if userRole = some (.str "admin") then true
  else if requiredRole = some (.str "regisseur") then
    decide (userRole = some (.str "regisseur")) || decide (userRole = some (.str "admin"))
  else if requiredRole = some (.str "utilisateur") then
    truthy userRole
  else false

/-- State of the authentication code: the application state, and the
Firestore calls of `getUserRole` that have not settled yet (the `get()` of the
user document, the `set()` that creates it), each with the uid concerned. -/
structure AuthState where
  app : AppState
  pendingLookups : List String
  pendingCreations : List String
  deriving DecidableEq, Repr

/-- What can happen to the authentication code: the `onAuthStateChanged`
listener of `initAuth` runs with a user or with `null`; the `get()` awaited by
`getUserRole` at position `i` settles (the document exists and has the given
`role` field, does not exist, or the read is rejected); the `set()` awaited
at position `i` settles. -/
inductive AuthEvent where
  | authStateChanged (user : Option UserInfo)
  | lookupFound (i : Nat) (role : Option JsValue)
  | lookupMissing (i : Nat)
  | lookupRejected (i : Nat)
  | creationDone (i : Nat)
  | creationRejected (i : Nat)
  deriving DecidableEq, Repr

/-- State after an event of the authentication code.

`authStateChanged (some user)`: `updateState({ user: {...} })`, then
`getUserRole(user)` runs up to its first `await`.  `authStateChanged none`:
`updateState({ user: null, userRole: null })`.  `lookupFound`:
`updateState({ userRole: userData.role })`.  `lookupMissing`: the `set()` is
issued.  `creationDone`: `updateState({ userRole: 'utilisateur' })`.  A
rejection is caught by the `catch` of `getUserRole`, which only writes to the
console. -/
def authStep (s : AuthState) : AuthEvent → AuthState
  | .authStateChanged (some user) =>
    { s with
      app := updateState { currentPage := none, user := some (some user),
                           userRole := none } s.app,
      pendingLookups := s.pendingLookups ++ [user.uid] }
  | .authStateChanged none =>
    { s with
      app := updateState { currentPage := none, user := some none,
                           userRole := some (some .null) } s.app }
  | .lookupFound i role =>
    match s.pendingLookups.get? i with
    | none => s
    | some _ =>
      { s with
        app := updateState { currentPage := none, user := none,
                             userRole := some role } s.app,
        pendingLookups := s.pendingLookups.eraseIdx i }
  | .lookupMissing i =>
    match s.pendingLookups.get? i with
    | none => s
    | some uid =>
      { s with pendingLookups := s.pendingLookups.eraseIdx i,
               pendingCreations := s.pendingCreations ++ [uid] }
  | .lookupRejected i =>
    { s with pendingLookups := s.pendingLookups.eraseIdx i }
  | .creationDone i =>
    match s.pendingCreations.get? i with
    | none => s
    | some _ =>
      { s with
        app := updateState { currentPage := none, user := none,
                             userRole := some (some (.str "utilisateur")) } s.app,
        pendingCreations := s.pendingCreations.eraseIdx i }
  | .creationRejected i =>
    { s with pendingCreations := s.pendingCreations.eraseIdx i }

/-- State of the authentication code after a sequence of events. -/
def authRun (s : AuthState) (es : List AuthEvent) : AuthState := es.foldl authStep s

/-- State of the authentication code at page load. -/
def authStart : AuthState :=
  { app := appState, pendingLookups := [], pendingCreations := [] }

/-- A user as Firebase reports it after a Google sign-in. -/
def alice : UserInfo :=
  { uid := "u1", email := some "alice@example.org", displayName := some "Alice",
    photoURL := none }

/-! ## Firestore documents and listeners (`firebaseUtils.js`) -/

/-- The own properties of a plain object, in insertion order. -/
abbrev Fields := List (String × JsValue)

/-- The value `o[key]`; `none` is `undefined`. -/
def Fields.get (o : Fields) (key : String) : Option JsValue :=
  (o.find? fun p => p.1 == key).map fun p => p.2

/-- The object after defining the property `key: v`: an existing property keeps
its place and takes the new value, a new one is added last. -/
def Fields.set (o : Fields) (key : String) (v : JsValue) : Fields :=
  if o.any (fun p => p.1 == key) then
    o.map fun p => if p.1 == key then (key, v) else p
  else o ++ [(key, v)]

/-- The object literal `{ ...o, ...src }`: the properties of `src` are defined
one after the other on a copy of `o`. -/
def Fields.spread (o src : Fields) : Fields :=
  src.foldl (fun acc p => acc.set p.1 p.2) o

/-- A Firestore document snapshot: `doc.id`, `doc.exists`, `doc.data()`. -/
structure DocumentSnapshot where
  id : String
  docExists : Bool
  data : Fields
  deriving DecidableEq, Repr

/-- The object literal `{ id: doc.id, ...doc.data() }`. -/
def withId (doc : DocumentSnapshot) : Fields :=
  Fields.spread [("id", JsValue.str doc.id)] doc.data

/-- A document as Firestore stores it. -/
structure StoredDocument where
  collection : String
  id : String
  data : Fields
  deriving DecidableEq, Repr

/-- The content of the Firestore database. -/
abbrev Firestore := List StoredDocument

/-- The snapshot `firestoreDB.collection(collection).doc(docId).get()` resolves with. -/
def Firestore.snapshot (db : Firestore) (collection docId : String) : DocumentSnapshot :=
  match db.find? fun d => d.collection == collection && d.id == docId with
  | some d => { id := docId, docExists := true, data := d.data }
  | none => { id := docId, docExists := false, data := [] }

/-- How a promise settles. -/
inductive Settled (α : Type) where
  | fulfilled (value : α)
  | rejected (reason : String)
  deriving DecidableEq, Repr

/-- The function `getDocument(collection, docId)`, an `async` function: how the
promise it returns settles.  `ready` is how `await ensureFirebaseInitialized()`
settles (a rejection propagates); `readRejects` is the reason with which the
`get()` is rejected, if it is (the `catch` logs the error and throws it
again); `none` as value is `null`. -/
def getDocument (ready : Settled Unit) (db : Firestore) (readRejects : Option String)
    (collection docId : String) : Settled (Option Fields) :=
  match ready with
  | .rejected reason => .rejected reason
  | .fulfilled _ =>
    match readRejects with
    | some reason => .rejected reason
    | none =>
      let doc := db.snapshot collection docId
      .fulfilled (if doc.docExists then some (withId doc) else none)

/-- An argument of `listenToCollection` as far as the function inspects it:
`undefined` (the argument is omitted), `null`, a function (with its
identity), another object, or a primitive value. -/
inductive JsArg where
  | undefined
  | null
  | function (id : Nat)
  | object
  | primitive
  deriving DecidableEq, Repr

/-- The operator `typeof`, as far as `listenToCollection` uses it. -/
def JsArg.typeof : JsArg → String
  | .undefined => "undefined"
  | .null => "object"
  | .function _ => "function"
  | .object => "object"
  | .primitive => "string"

/-- A Firestore query object: a collection reference, or what a function
returned for a query it was given. -/
inductive Query where
  | collection (name : String)
  | refined (fn : Nat) (base : Query)
  deriving DecidableEq, Repr

/-- The argument with which a user function is invoked. -/
inductive CallArg where
  | query (q : Query)
  | docs (l : List Fields)
  deriving DecidableEq, Repr

/-- What `listenToCollection` did: the user functions it invoked, with their
argument; the query on which `onSnapshot` was called and the value of
`callback` that the snapshot handler will call; how the call ended. -/
structure Listening where
  calls : List (Nat × CallArg)
  subscription : Option (Query × JsArg)
  completion : Completion
  deriving DecidableEq, Repr

/-- The function `listenToCollection(collection, queryFn, callback)`.

`db` is `firestoreDB` (`none`: undefined).  `returnsQuery f` tells whether the
user function `f`, called with a query, returns a query (as a `queryFn`
does) or something else, such as `undefined` (as a callback does); in the
second case `query.onSnapshot` throws a `TypeError`. -/
def listenToCollection (db : Option Firestore) (returnsQuery : Nat → Bool)
    (collection : String) (queryFn callback : JsArg) : Listening :=
  match db with
  | none => { calls := [], subscription := none, completion := .normal }
  | some _ =>
    let query := Query.collection collection
    match queryFn with
    | .function f =>
      -- `typeof queryFn === 'function'`: `query = queryFn(query)`
      if returnsQuery f then
        { calls := [(f, .query query)],
          subscription := some (.refined f query, callback),
          completion := .normal }
      else
        { calls := [(f, .query query)], subscription := none,
          completion := .thrown "TypeError: query.onSnapshot is not a function" }
    | _ =>
      if queryFn.typeof = "object" ∧ callback.typeof = "undefined" then
        { calls := [], subscription := some (query, queryFn), completion := .normal }
      else
        { calls := [], subscription := some (query, callback), completion := .normal }

/-- The snapshot handler given to `onSnapshot` by `listenToCollection`, run on
the documents of a snapshot: the user function it invokes with the list of
`{ id, ...data }` objects, and how it ends (`callback(docs)` throws a
`TypeError` when `callback` is not a function). -/
def onCollectionSnapshot (callback : JsArg) (docs : List DocumentSnapshot) :
    List (Nat × CallArg) × Completion :=
  match callback with
  | .function g => ([(g, .docs (docs.map withId))], .normal)
  | _ => ([], .thrown "TypeError: callback is not a function")

/-- A document whose data has a field named `id`. -/
def docWithIdField : StoredDocument :=
  { collection := "stocks", id := "abc123",
    data := [("id", JsValue.str "REF-7"), ("nom", JsValue.str "Projecteur")] }

/-! ## Emulator setting (`firebaseUtils.js`, `testFirebase.js`) -/

/-- What a function call gives its caller: a value, or an exception. -/
inductive Returned (α : Type) where
  | value (v : α)
  | threw (what : String)
  deriving DecidableEq, Repr

/-- The part of the browser that the emulator functions touch: the state of
the logging module and `localStorage['SIGMA_USE_EMULATORS']` (`none`: the key
is absent). -/
structure Browser where
  log : LogState
  emulatorSetting : Option String
  deriving DecidableEq, Repr

/-- The `Error` object caught when an operation throws, reduced to the
description of the exception. -/
def caughtError (what : String) : JsValue := .nativeError "Error" what ""

/-- The body of the `try` block of `shouldUseEmulators`: the value it returns,
`none` when it falls through, or the exception of `getItem`. -/
def readEmulatorSetting (h : Host) (b : Browser) : Returned (Option Bool) :=
  if h.getItemThrows then .threw "getItem"
  else
    let localSetting := b.emulatorSetting
    if localSetting = some "true" then .value (some true)
    else if localSetting = some "false" then .value (some false)
    else .value none

/-- The function `shouldUseEmulators()`. -/
def shouldUseEmulators (h : Host) (b : Browser) : Returned Bool :=
  match readEmulatorSetting h b with
  | .value (some r) => .value r
  | .value none => .value false
  | .threw _ => .value false

/-- The `catch` block of `toggleEmulatorMode`: `logError(..., error)`, then
`return false`. -/
def toggleFailed (h : Host) (what : String) (b : Browser) : Returned Bool × Browser :=
  match logError h "Erreur lors de la configuration du mode émulateur"
      (some (caughtError what)) b.log with
  | (.normal, log) => (.value false, { b with log := log })
  | (.thrown w, log) => (.threw w, { b with log := log })

/-- The function `toggleEmulatorMode(enable)`; `none` is an omitted argument. -/
def toggleEmulatorMode (h : Host) (enable : Option JsValue) (b : Browser) :
    Returned Bool × Browser :=
  if h.setItemThrows then toggleFailed h "setItem" b
  else
    let b1 : Browser :=
      { b with emulatorSetting := some (if truthy enable then "true" else "false") }
    match logInfo h
        ("Mode émulateur " ++ (if truthy enable then "activé" else "désactivé")
          ++ ", rafraîchissez la page pour appliquer les changements")
        none b1.log with
    | (.normal, log) => (.value true, { b1 with log := log })
    | (.thrown w, log) => toggleFailed h w { b1 with log := log }

/-- The browser at page load, nothing stored. -/
def freshBrowser : Browser := { log := initialState none, emulatorSetting := none }

/-! ## Firebase start-up (`firebaseUtils.js`)

The logging calls of these functions are calls of the functions of
`loggingUtils.js` above, acting on the state of the logging code (`log`); an
exception they throw takes the path any exception takes.  The callback given
to the promise of `enablePersistence` runs later, outside the handler, and is
not part of the model. -/

/-- State of a promise. -/
inductive PromiseStatus where
  | pending
  | fulfilled
  | rejected (reason : String)
  deriving DecidableEq, Repr

/-- The properties `host` and `port` of an emulator entry of the configuration. -/
structure EmulatorEndpoint where
  host : String
  port : String
  deriving DecidableEq, Repr

/-- The object `config.emulators`; a missing property is `none`. -/
structure EmulatorsConfig where
  firestore : Option EmulatorEndpoint
  auth : Option EmulatorEndpoint
  functions : Option EmulatorEndpoint
  storage : Option EmulatorEndpoint
  deriving DecidableEq, Repr

/-- The configuration object the server returns, as far as the success
handler reads it; a missing property is `none`. -/
structure FirebaseConfig where
  apiKey : Option String
  projectId : Option String
  functionsRegion : Option String
  useEmulators : Bool
  emulators : Option EmulatorsConfig
  deriving DecidableEq, Repr

/-- The calls to the Firebase SDK made by the success handler, in order. -/
inductive SdkCall where
  | app
  | firestore
  | enablePersistence
  | auth
  | functions
  | useRegion
  | storage
  | firestoreEmulator
  | authEmulator
  | functionsEmulator
  | storageEmulator
  deriving DecidableEq, Repr

/-- Behaviour of the Firebase SDK during the success handler: the call that
throws, if any, and whether `firebase.storage` is defined. -/
structure Sdk where
  throwsAt : Option SdkCall
  hasStorage : Bool
  deriving DecidableEq, Repr

/-- The module variables of `firebaseUtils.js`, the state of the logging code,
and what the module has asked of the server.  `initializationPromise` is
`null` (`none`) or a promise, named by its position in `promises`, which holds
the state of every promise `initFirebase` has created.  The instance variables
are reduced to whether they are defined.  `configRequests` is the history of
the `getFirebaseConfig(useEmulators)` calls issued; `outstanding` are the
calls whose handler has not run yet, each with the promise its handlers
settle and the `useEmulators` they captured; `dispatched` counts the
`'firebase-ready'` events dispatched. -/
structure FirebaseState where
  log : LogState
  firebaseInitialized : Bool
  initializationPromise : Option Nat
  promises : List PromiseStatus
  firebaseApp : Bool
  firestoreDB : Bool
  auth : Bool
  functions : Bool
  storage : Bool
  configRequests : List Bool
  outstanding : List (Nat × Bool)
  dispatched : Nat
  deriving DecidableEq, Repr

/-- The module at page load: `let firebaseInitialized = false; let
initializationPromise = null;`, no instance defined. -/
def firebaseStart : FirebaseState :=
  { log := initialState none,
    firebaseInitialized := false, initializationPromise := none, promises := [],
    firebaseApp := false, firestoreDB := false, auth := false, functions := false,
    storage := false, configRequests := [], outstanding := [], dispatched := 0 }

/-- JavaScript truthiness of a string property that may be missing. -/
def textTruthy : Option String → Bool
  | none => false
  | some s => s != ""

/-- The function `initFirebase()`: the promise it returns and the state it
leaves.  `useEmulators` is the value `shouldUseEmulators()` returns when the
executor calls it. -/
def initFirebase (useEmulators : Bool) (s : FirebaseState) : Nat × FirebaseState :=
  match s.initializationPromise with
  | some p => (p, s)
  | none =>
    let p := s.promises.length
    if s.firebaseInitialized then
      (p, { s with promises := s.promises ++ [.fulfilled],
                   initializationPromise := some p })
    else
      (p, { s with promises := s.promises ++ [.pending],
                   configRequests := s.configRequests ++ [useEmulators],
                   outstanding := s.outstanding ++ [(p, useEmulators)],
                   initializationPromise := some p })

/-- The function `ensureFirebaseInitialized()`: the promise of `initFirebase`
that the returned promise follows, or `none` for `Promise.resolve()`. -/
def ensureFirebaseInitialized (useEmulators : Bool) (s : FirebaseState) :
    Option Nat × FirebaseState :=
  if !s.firebaseInitialized then
    ((initFirebase useEmulators s).1, (initFirebase useEmulators s).2)
  else (none, s)

/-- A statement of a handler acting on the module state. -/
abbrev Fb := FirebaseState → Completion × FirebaseState

/-- Sequencing `a; b` in a handler: `b` runs only if `a` returns. -/
def Fb.andThen (a b : Fb) : Fb := fun s =>
  match a s with
  | (.normal, s1) => b s1
  | (.thrown w, s1) => (.thrown w, s1)

/-- A statement that does nothing (a branch not taken). -/
def Fb.skip : Fb := fun s => (.normal, s)

/-- A call of a function of `loggingUtils.js` from `firebaseUtils.js`. -/
def Fb.logging (call : Js) : Fb := fun s =>
  ((call s.log).1, { s with log := (call s.log).2 })

/-- One SDK call of the success handler and the assignment of its result:
throws if the SDK says so, before anything is assigned. -/
def sdkCall (sdk : Sdk) (call : SdkCall) (assign : FirebaseState → FirebaseState) :
    Fb := fun s =>
  if sdk.throwsAt = some call then (.thrown "Firebase SDK", s)
  else (.normal, assign s)

/-- One of the four blocks of `setupEmulators`: when the configuration has the
entry and the instance is defined, `useEmulator(...)`, then `logInfo` of the
host and port. -/
def useEmulator (h : Host) (sdk : Sdk) (call : SdkCall)
    (endpoint : Option EmulatorEndpoint) (defined : FirebaseState → Bool)
    (service : String) : Fb := fun s =>
  match endpoint with
  | none => (.normal, s)
  | some e =>
    if defined s then
      ((sdkCall sdk call id).andThen
        (Fb.logging (logInfo h
          ("Émulateur " ++ service ++ " configuré: " ++ e.host ++ ":" ++ e.port)
          none))) s
    else (.normal, s)

/-- The function `setupEmulators(config)`. -/
def setupEmulators (h : Host) (sdk : Sdk) (config : FirebaseConfig) : Fb :=
  match config.emulators with
  | none => Fb.logging (logWarning h "Configuration des émulateurs manquante" none)
  | some emulators =>
    (Fb.logging
      (logInfo h "Configuration des émulateurs Firebase en cours..." none)).andThen <|
    (useEmulator h sdk .firestoreEmulator emulators.firestore
      (fun s => s.firestoreDB) "Firestore").andThen <|
    (useEmulator h sdk .authEmulator emulators.auth
      (fun s => s.auth) "Auth").andThen <|
    (useEmulator h sdk .functionsEmulator emulators.functions
      (fun s => s.functions) "Functions").andThen <|
    (useEmulator h sdk .storageEmulator emulators.storage
      (fun s => s.storage) "Storage").andThen <|
    Fb.logging (logInfo h "Configuration des émulateurs Firebase terminée" none)

/-- The promise list after `resolve()` or `reject(reason)` on promise `p`; a
promise that is already settled stays as it is. -/
def settle (promises : List PromiseStatus) (p : Nat) (status : PromiseStatus) :
    List PromiseStatus :=
  if promises.get? p = some .pending then promises.set p status else promises

/-- The call `resolve()` or `reject(reason)` of the executor of promise `p`. -/
def settlePromise (p : Nat) (status : PromiseStatus) : Fb := fun s =>
  (.normal, { s with promises := settle s.promises p status })

/-- The assignment `firebaseInitialized = true`. -/
def markInitialized : Fb := fun s =>
  (.normal, { s with firebaseInitialized := true })

/-- The call `document.dispatchEvent(new Event('firebase-ready'))`. -/
def dispatchReady : Fb := fun s =>
  (.normal, { s with dispatched := s.dispatched + 1 })

/-- The body of the `try` block of the success handler of `getFirebaseConfig`,
for the request whose promise is `p`: the check of the configuration, the SDK
calls, `setupEmulators`, `firebaseInitialized = true`, the `logInfo` of line
165, the dispatch of `'firebase-ready'`, and `resolve()`. -/
def configure (h : Host) (useEmulators : Bool) (config : Option FirebaseConfig)
    (sdk : Sdk) (p : Nat) : Fb := fun s =>
  match config with
  | none => (.thrown "Configuration Firebase invalide ou incomplète", s)
  | some config =>
    if !textTruthy config.apiKey || !textTruthy config.projectId then
      (.thrown "Configuration Firebase invalide ou incomplète", s)
    else
      ((sdkCall sdk .app fun s => { s with firebaseApp := true }).andThen <|
       (sdkCall sdk .firestore fun s => { s with firestoreDB := true }).andThen <|
       (sdkCall sdk .enablePersistence id).andThen <|
       (sdkCall sdk .auth fun s => { s with auth := true }).andThen <|
       (sdkCall sdk .functions fun s => { s with functions := true }).andThen <|
       (if textTruthy config.functionsRegion then sdkCall sdk .useRegion id
        else Fb.skip).andThen <|
       (if sdk.hasStorage then sdkCall sdk .storage fun s => { s with storage := true }
        else Fb.skip).andThen <|
       (if useEmulators && config.useEmulators then setupEmulators h sdk config
        else Fb.skip).andThen <|
       markInitialized.andThen <|
       (Fb.logging (logInfo h
          ("Firebase initialisé avec succès"
            ++ (if useEmulators then " (mode émulateur)" else ""))
          none)).andThen <|
       dispatchReady.andThen <|
       settlePromise p .fulfilled) s

/-- The `catch` block of the success handler: `logError(..., error)`, then
`reject(error)`. -/
def configureFailed (h : Host) (p : Nat) (what : String) : Fb :=
  (Fb.logging (logError h "Erreur lors de l'initialisation de Firebase"
    (some (caughtError what)))).andThen
    (settlePromise p (.rejected what))

/-- The success handler of the `getFirebaseConfig` call at position `i`: the
`try` block and, when it throws, the `catch` block.  An exception thrown by the
`catch` block ends the handler. -/
def configSuccessHandler (h : Host) (i : Nat) (config : Option FirebaseConfig)
    (sdk : Sdk) (s : FirebaseState) : FirebaseState :=
  match s.outstanding.get? i with
  | none => s
  | some (p, useEmulators) =>
    let s1 := { s with outstanding := s.outstanding.eraseIdx i }
    match configure h useEmulators config sdk p s1 with
    | (.normal, s2) => s2
    | (.thrown w, s2) => (configureFailed h p w s2).2

/-- The failure handler of the `getFirebaseConfig` call at position `i`:
`logError(errorMsg, error)`, then `reject(new Error(errorMsg))`.  An exception
thrown by `logError` ends the handler. -/
def configFailureHandler (h : Host) (i : Nat) (s : FirebaseState) : FirebaseState :=
  match s.outstanding.get? i with
  | none => s
  | some (p, _) =>
    let s1 := { s with outstanding := s.outstanding.eraseIdx i }
    (((Fb.logging (logError h
        "Erreur lors de la récupération de la configuration Firebase"
        (some (caughtError "getFirebaseConfig")))).andThen
      (settlePromise p
        (.rejected "Erreur lors de la récupération de la configuration Firebase")))
      s1).2

/-- What can happen to the Firebase module: calls of `initFirebase` and
`ensureFirebaseInitialized` (with the value `shouldUseEmulators()` would
return), and the handlers of the outstanding request at position `i`. -/
inductive FirebaseEvent where
  | initFirebase (useEmulators : Bool)
  | ensureFirebaseInitialized (useEmulators : Bool)
  | configSuccess (h : Host) (i : Nat) (config : Option FirebaseConfig) (sdk : Sdk)
  | configFailure (h : Host) (i : Nat)
  deriving DecidableEq, Repr

/-- State of the Firebase module after an event. -/
def firebaseStep (s : FirebaseState) : FirebaseEvent → FirebaseState
  | .initFirebase useEmulators => (SigmaBG.initFirebase useEmulators s).2
  | .ensureFirebaseInitialized useEmulators =>
    (SigmaBG.ensureFirebaseInitialized useEmulators s).2
  | .configSuccess h i config sdk => configSuccessHandler h i config sdk s
  | .configFailure h i => configFailureHandler h i s

/-- State of the Firebase module after a sequence of events. -/
def firebaseRun (s : FirebaseState) (es : List FirebaseEvent) : FirebaseState :=
  es.foldl firebaseStep s

/-- A first `ensureFirebaseInitialized()` whose configuration request fails. -/
def failedStartup : FirebaseState :=
  firebaseRun firebaseStart
    [FirebaseEvent.ensureFirebaseInitialized false,
     FirebaseEvent.configFailure quietHost 0]

/-- A complete configuration. -/
def goodConfig : FirebaseConfig :=
  { apiKey := some "key", projectId := some "sigma", functionsRegion := none,
    useEmulators := false, emulators := none }

/-- An SDK that works, with storage. -/
def goodSdk : Sdk := { throwsAt := none, hasStorage := true }

/-- A first `initFirebase()` whose configuration request succeeds with a
complete configuration. -/
def configuredStartup : FirebaseState :=
  firebaseRun firebaseStart
    [FirebaseEvent.initFirebase false,
     FirebaseEvent.configSuccess quietHost 0 (some goodConfig) goodSdk]

/-! ## Invariants of the logging code -/

/-- Nothing has been queued, delivered or registered: the variables of the
block have their first values, no global `isConnected` exists, no listener is
registered, and no delivery call has been issued. -/
def LogState.untouched (s : LogState) : Prop :=
  s.logQueue = [] ∧ s.isConnected = true ∧ s.globalIsConnected = none ∧
  s.listeners = 0 ∧ s.outstanding = [] ∧ s.issued = [] ∧ s.acked = []

/-! ## Effects of the functions -/

theorem run_cons (s : LogState) (e : Event) (es : List Event) :
    run s (e :: es) = run (step s e) es := rfl

theorem run_append (s : LogState) (es fs : List Event) :
    run s (es ++ fs) = run (run s es) fs := by
  simp [run, List.foldl_append]

/-- The function `_enqueueLog` throws and changes nothing. -/
theorem enqueueLog_throws (e : LogEntry) (s : LogState) :
    _enqueueLog e s = (logQueueError, s) := rfl

/-- The call of `removeItem` removes the slot or throws. -/
theorem removeStored_effect (h : Host) (s : LogState) :
    removeStored h s = (Completion.normal, { s with slot := none }) ∨
    removeStored h s = (Completion.thrown "removeItem", s) := by
  unfold removeStored
  by_cases hr : h.removeItemThrows = true
  · right; simp [hr]
  · left; simp [hr]

/-- The `try` / `catch` statement of `_processPendingLogs` returns normally; it
can only remove the slot and write to the console. -/
theorem reconcile_effect (h : Host) (s : LogState) :
    (reconcile h s).1 = Completion.normal ∧
    ∃ slot console, (reconcile h s).2 = { s with slot := slot, console := console } ∧
      (slot = s.slot ∨ slot = none) := by
  obtain ⟨q, c, g, slot, l, o, i, a, cr, co⟩ := s
  unfold reconcile Js.tryCatch restoreStored
  by_cases hg : h.getItemThrows = true
  · simp only [hg, if_true]
    exact ⟨rfl, slot, _, rfl, Or.inl rfl⟩
  · simp only [hg]
    have rem : ∀ co2, 
        (match removeStored h ⟨q, c, g, slot, l, o, i, a, cr, co2⟩ with
          | (Completion.normal, s1) => (Completion.normal, s1)
          | (Completion.thrown _, s1) =>
            consoleWrite "Erreur lors de la récupération des logs stockés:" s1).1
          = Completion.normal ∧
        ∃ slot2 console,
          (match removeStored h ⟨q, c, g, slot, l, o, i, a, cr, co2⟩ with
            | (Completion.normal, s1) => (Completion.normal, s1)
            | (Completion.thrown _, s1) =>
              consoleWrite "Erreur lors de la récupération des logs stockés:" s1).2
            = ⟨q, c, g, slot2, l, o, i, a, cr, console⟩ ∧
          (slot2 = slot ∨ slot2 = none) := by
      intro co2
      rcases removeStored_effect h ⟨q, c, g, slot, l, o, i, a, cr, co2⟩ with h1 | h1
      · rw [h1]; exact ⟨rfl, none, co2, rfl, Or.inr rfl⟩
      · rw [h1]; exact ⟨rfl, slot, _, rfl, Or.inl rfl⟩
    rcases slot with _ | st
    · exact ⟨rfl, none, co, rfl, Or.inl rfl⟩
    · cases st with
      | blank => exact ⟨rfl, _, co, rfl, Or.inl rfl⟩
      | corrupt text => exact ⟨rfl, _, _, rfl, Or.inl rfl⟩
      | jsonNull => exact ⟨rfl, _, _, rfl, Or.inl rfl⟩
      | unshiftable => exact ⟨rfl, _, _, rfl, Or.inl rfl⟩
      | lengthless => exact rem co
      | array items =>
        cases items with
        | nil => exact rem co
        | cons x xs => exact ⟨rfl, _, _, rfl, Or.inl rfl⟩

/-- The function `_processPendingLogs` throws at its loop condition, after the
`try` / `catch` statement. -/
theorem processPendingLogs_eq (h : Host) (s : LogState) :
    _processPendingLogs h s = (logQueueError, (reconcile h s).2) := by
  have hn := (reconcile_effect h s).1
  unfold _processPendingLogs Js.andThen
  rcases hr : reconcile h s with ⟨c, s1⟩
  rw [hr] at hn
  simp only at hn
  subst hn
  rfl

/-- What `_processPendingLogs` leaves: the state it found, but for the slot,
which may have been removed, and the console. -/
theorem processPendingLogs_effect (h : Host) (s : LogState) :
    (_processPendingLogs h s).1 = logQueueError ∧
    ∃ slot console,
      (_processPendingLogs h s).2 = { s with slot := slot, console := console } ∧
      (slot = s.slot ∨ slot = none) := by
  rw [processPendingLogs_eq]
  exact ⟨rfl, (reconcile_effect h s).2⟩

/-- A call of `_log` made while no global `isConnected` exists: the entry is
built, then the call throws. -/
theorem log_throws (h : Host) (level message : String) (data : JsValue) (s : LogState)
    (hg : s.globalIsConnected = none) :
    _log h level message data s
      = (isConnectedError,
         { s with created := s.created ++
             [{ level := level, message := message, data := data,
                timestamp := h.timestamp, url := h.url, userAgent := h.userAgent }] }) := by
  simp [_log, hg, isConnectedError]

/-- The entry object a call of `_log` builds, in every state. -/
theorem log_created (h : Host) (level message : String) (data : JsValue) (s : LogState) :
    (_log h level message data s).2.created
      = s.created ++
          [{ level := level, message := message, data := data,
             timestamp := h.timestamp, url := h.url, userAgent := h.userAgent }] ∧
    (_log h level message data s).2.logQueue = s.logQueue ∧
    (_log h level message data s).2.isConnected = s.isConnected := by
  unfold _log
  rcases hg : s.globalIsConnected with _ | b
  · simp
  · cases b <;> simp [_sendLogToServer, _enqueueLog, logQueueOutOfScope]

/-- A logging call is its console line followed by `_log`. -/
theorem call_eq_log (c : RecordCall) (s : LogState) :
    c.call s
      = _log c.host c.entry.level c.message c.entry.data
          { s with console := s.console ++ [c.consoleLine] } := by
  obtain ⟨fn, host, message, arg⟩ := c
  cases fn <;> rfl

/-- A logging call made while no global `isConnected` exists writes its
console line, builds its entry and throws. -/
theorem call_throws (c : RecordCall) (s : LogState) (hg : s.globalIsConnected = none) :
    c.call s
      = (isConnectedError,
         { s with console := s.console ++ [c.consoleLine],
                  created := s.created ++ [c.entry] }) := by
  rw [call_eq_log]
  exact log_throws c.host c.entry.level c.message c.entry.data
    { s with console := s.console ++ [c.consoleLine] } hg

/-- The entry a logging call builds, and the variables of the block, which it
leaves alone, in every state. -/
theorem call_created (c : RecordCall) (s : LogState) :
    (c.call s).2.created = s.created ++ [c.entry] ∧
    (c.call s).2.logQueue = s.logQueue ∧
    (c.call s).2.isConnected = s.isConnected := by
  rw [call_eq_log]
  exact log_created _ _ _ _ _

/-- The success handler issues no delivery call and leaves the variables of
the block alone, in every state. -/
theorem successHandler_effect (h : Host) (i : Nat) (s : LogState) :
    (successHandler h i s).2.issued = s.issued ∧
    (successHandler h i s).2.logQueue = s.logQueue ∧
    (successHandler h i s).2.isConnected = s.isConnected := by
  unfold successHandler
  rcases ho : s.outstanding.get? i with _ | e
  · simp
  · simp only
    rcases hg : s.globalIsConnected with _ | b
    · simp
    · cases b
      · simp only [Js.andThen, assignIsConnected]
        obtain ⟨_, slot, console, hs, _⟩ := processPendingLogs_effect h
          { s with outstanding := s.outstanding.eraseIdx i, acked := s.acked ++ [e],
                   globalIsConnected := some true }
        rw [hs]
        exact ⟨rfl, rfl, rfl⟩
      · simp

/-- The listener of `'online'` throws in `_processPendingLogs`, issues no
delivery call and leaves the variables of the block alone, in every state. -/
theorem onOnline_effect (h : Host) (s : LogState) :
    (onOnline h s).1 = logQueueError ∧
    (onOnline h s).2.issued = s.issued ∧
    (onOnline h s).2.logQueue = s.logQueue ∧
    (onOnline h s).2.isConnected = s.isConnected := by
  unfold onOnline
  simp only [Js.andThen, assignIsConnected]
  obtain ⟨h1, slot, console, hs, _⟩ := processPendingLogs_effect h
    { s with globalIsConnected := some true }
  rw [hs] at *
  exact ⟨h1, rfl, rfl, rfl⟩

/-! ## Executions of the logging code -/

theorem initial_untouched (slot : Option Stored) : (initialState slot).untouched :=
  ⟨rfl, rfl, rfl, rfl, rfl, rfl, rfl⟩

/-- No event changes a state in which nothing has been queued, delivered or
registered, but for the slot, the console and the entries built. -/
theorem step_untouched (s : LogState) (e : Event) (hs : s.untouched) :
    (step s e).untouched ∧
    ((step s e).slot = s.slot ∨ (step s e).slot = none) ∧
    (∃ l, (step s e).created = s.created ++ l) := by
  obtain ⟨hq, hc, hg, hl, ho, hi, ha⟩ := hs
  have same : ∀ t : LogState, t = s →
      t.untouched ∧ (t.slot = s.slot ∨ t.slot = none) ∧
      (∃ l, t.created = s.created ++ l) := by
    intro t ht
    subst ht
    exact ⟨⟨hq, hc, hg, hl, ho, hi, ha⟩, Or.inl rfl, [], by simp⟩
  have drained : ∀ (slot : Option Stored) (console : List String),
      (slot = s.slot ∨ slot = none) →
      ∀ t : LogState, t = { s with slot := slot, console := console } →
      t.untouched ∧ (t.slot = s.slot ∨ t.slot = none) ∧
      (∃ l, t.created = s.created ++ l) := by
    intro slot console h3 t ht
    subst ht
    exact ⟨⟨hq, hc, hg, hl, ho, hi, ha⟩, h3, [], by simp⟩
  cases e with
  | record c =>
    have hstep : step s (Event.record c)
        = { s with console := s.console ++ [c.consoleLine],
                   created := s.created ++ [c.entry] } := by
      simp only [step]
      rw [call_throws c s hg]
    rw [hstep]
    exact ⟨⟨hq, hc, hg, hl, ho, hi, ha⟩, Or.inl rfl, [c.entry], rfl⟩
  | success h i => exact same _ (by simp [step, successHandler, ho])
  | failure i => exact same _ (by simp [step, failureHandler, ho])
  | online h => exact same _ (by simp [step, hl, dispatch])
  | offline => exact same _ (by simp [step, hl, dispatch])
  | initLogging h =>
    obtain ⟨h1, slot, console, h2, h3⟩ := processPendingLogs_effect h s
    have : (initLogging h s).2 = (_processPendingLogs h s).2 := by
      unfold initLogging Js.andThen
      rcases hr : _processPendingLogs h s with ⟨c, s1⟩
      rw [hr] at h1
      simp only [logQueueError] at h1
      subst h1
      rfl
    exact drained slot console h3 _ (by simp only [step, this, h2])
  | processPendingLogs h =>
    obtain ⟨h1, slot, console, h2, h3⟩ := processPendingLogs_effect h s
    exact drained slot console h3 _ (by simp only [step, h2])

/-- Along every execution from page load nothing is queued, delivered or
registered; the slot is as the page found it or removed. -/
theorem run_untouched (es : List Event) (s : LogState) (hs : s.untouched) :
    (run s es).untouched ∧
    ((run s es).slot = s.slot ∨ (run s es).slot = none) ∧
    (∃ l, (run s es).created = s.created ++ l) := by
  induction es generalizing s with
  | nil => exact ⟨hs, Or.inl rfl, [], by simp [run]⟩
  | cons e es ih =>
    obtain ⟨h1, h2, l1, h3⟩ := step_untouched s e hs
    obtain ⟨k1, k2, l2, k3⟩ := ih (step s e) h1
    rw [run_cons]
    refine ⟨k1, ?_, l1 ++ l2, ?_⟩
    · rcases k2 with k2 | k2
      · rw [k2]; exact h2
      · exact Or.inr k2
    · rw [k3, h3, List.append_assoc]

/-- No event changes the variables of the block, in any state. -/
theorem step_block (s : LogState) (e : Event) :
    (step s e).logQueue = s.logQueue ∧ (step s e).isConnected = s.isConnected := by
  have hd : ∀ (f : Js), (∀ t, (f t).2.logQueue = t.logQueue ∧
      (f t).2.isConnected = t.isConnected) → ∀ n t,
      (dispatch f n t).logQueue = t.logQueue ∧
      (dispatch f n t).isConnected = t.isConnected := by
    intro f hf n
    induction n with
    | zero => intro t; exact ⟨rfl, rfl⟩
    | succ n ih =>
      intro t
      simp only [dispatch]
      rw [(ih _).1, (ih _).2]
      exact hf t
  cases e with
  | record c => exact ⟨(call_created c s).2.1, (call_created c s).2.2⟩
  | success h i => exact (successHandler_effect h i s).2
  | failure i =>
    simp only [step, failureHandler]
    rcases ho : s.outstanding.get? i with _ | e
    · simp
    · simp [Js.andThen, assignIsConnected, _enqueueLog, logQueueOutOfScope]
  | online h => exact hd _ (fun t => (onOnline_effect h t).2.2) _ _
  | offline => exact hd _ (fun t => ⟨rfl, rfl⟩) _ _
  | initLogging h =>
    obtain ⟨h1, slot, console, h2, h3⟩ := processPendingLogs_effect h s
    have : (initLogging h s).2 = (_processPendingLogs h s).2 := by
      unfold initLogging Js.andThen
      rcases hr : _processPendingLogs h s with ⟨c, s1⟩
      rw [hr] at h1
      simp only [logQueueError] at h1
      subst h1
      rfl
    have hstep : step s (Event.initLogging h)
        = { s with slot := slot, console := console } := by
      simp only [step, this, h2]
    rw [hstep]
    exact ⟨rfl, rfl⟩
  | processPendingLogs h =>
    obtain ⟨h1, slot, console, h2, h3⟩ := processPendingLogs_effect h s
    have hstep : step s (Event.processPendingLogs h)
        = { s with slot := slot, console := console } := by
      simp only [step, h2]
    rw [hstep]
    exact ⟨rfl, rfl⟩

/-! ## Object literals with a spread -/

theorem find_map_replace_ne (o : Fields) (k k2 : String) (v : JsValue) (hne : k2 ≠ k) :
    (o.map fun p => if p.1 == k then (k, v) else p).find? (fun p => p.1 == k2)
      = o.find? (fun p => p.1 == k2) := by
  have h2 : (k == k2) = false := by
    rw [beq_eq_false_iff_ne]
    exact fun hc => hne hc.symm
  induction o with
  | nil => rfl
  | cons p rest ih =>
    simp only [List.map_cons, List.find?_cons]
    by_cases hp : (p.1 == k) = true
    · have h1 : (p.1 == k2) = false := by
        rw [beq_iff_eq] at hp
        rw [hp]
        exact h2
      rw [if_pos hp]
      simp only [h2, h1]
      exact ih
    · rw [if_neg hp]
      cases p.1 == k2
      · exact ih
      · rfl

theorem find_map_replace_self (o : Fields) (k : String) (v : JsValue)
    (hany : (o.any fun p => p.1 == k) = true) :
    ((o.map fun p => if p.1 == k then (k, v) else p).find? (fun p => p.1 == k)).map
      (fun p => p.2) = some v := by
  induction o with
  | nil => simp at hany
  | cons p rest ih =>
    simp only [List.map_cons, List.find?_cons]
    by_cases hp : (p.1 == k) = true
    · rw [if_pos hp]
      simp only [beq_self_eq_true, Option.map_some']
    · rw [if_neg hp]
      have h3 : (p.1 == k) = false := by simpa using hp
      simp only [h3]
      apply ih
      simpa only [List.any_cons, h3, Bool.false_or] using hany

theorem Fields.get_set_ne (o : Fields) (k k2 : String) (v : JsValue) (hne : k2 ≠ k) :
    (o.set k v).get k2 = o.get k2 := by
  unfold Fields.set Fields.get
  split
  · rw [find_map_replace_ne o k k2 v hne]
  · have h2 : (k == k2) = false := by
      rw [beq_eq_false_iff_ne]
      exact fun hc => hne hc.symm
    rw [List.find?_append]
    simp only [List.find?_cons, h2, List.find?_nil, Option.or_none]

theorem Fields.get_set_self (o : Fields) (k : String) (v : JsValue) :
    (o.set k v).get k = some v := by
  unfold Fields.set Fields.get
  split
  · rename_i hany
    exact find_map_replace_self o k v hany
  · rename_i hany
    have hnone : (o.find? fun p => p.1 == k) = none := by
      rw [List.find?_eq_none]
      intro x hx hc
      exact hany (List.any_eq_true.mpr ⟨x, hx, hc⟩)
    rw [List.find?_append, hnone]
    simp only [List.find?_cons, beq_self_eq_true, Option.none_or, Option.map_some']

theorem Fields.get_spread_of_absent (o src : Fields) (k : String)
    (habs : ∀ p ∈ src, p.1 ≠ k) : (Fields.spread o src).get k = o.get k := by
  induction src generalizing o with
  | nil => rfl
  | cons p rest ih =>
    have h1 := ih (o.set p.1 p.2) (fun q hq => habs q (List.mem_cons_of_mem _ hq))
    have h2 := Fields.get_set_ne o p.1 k p.2 (fun hc => habs p (List.mem_cons_self _ _) hc.symm)
    simp only [Fields.spread, List.foldl_cons] at h1 ⊢
    rw [h1, h2]

theorem Fields.get_spread_of_mem (o src : Fields) (k : String) (v : JsValue)
    (hkeys : (src.map Prod.fst).Nodup) (hmem : (k, v) ∈ src) :
    (Fields.spread o src).get k = some v := by
  induction src generalizing o with
  | nil => simp at hmem
  | cons p rest ih =>
    simp only [List.map_cons, List.nodup_cons] at hkeys
    rcases List.mem_cons.mp hmem with heq | hin
    · subst heq
      have habs : ∀ q ∈ rest, q.1 ≠ k := by
        intro q hq hc
        exact hkeys.1 (List.mem_map.mpr ⟨q, hq, hc⟩)
      have h1 := Fields.get_spread_of_absent (o.set k v) rest k habs
      simp only [Fields.spread, List.foldl_cons] at h1 ⊢
      rw [h1, Fields.get_set_self]
    · have h1 := ih (o.set p.1 p.2) hkeys.2 hin
      simp only [Fields.spread, List.foldl_cons] at h1 ⊢
      exact h1

/-- What `{ id: doc.id, ...doc.data() }` holds, for data whose property names
are distinct: every field of the data, with its value, and the document's ID
as `id` only when the data has no field named `id`. -/
theorem withId_fields (doc : DocumentSnapshot)
    (hkeys : (doc.data.map Prod.fst).Nodup) :
    (∀ k v, (k, v) ∈ doc.data → Fields.get (withId doc) k = some v) ∧
    ((∀ p ∈ doc.data, p.1 ≠ "id") →
      Fields.get (withId doc) "id" = some (JsValue.str doc.id)) := by
  constructor
  · intro k v hmem
    exact Fields.get_spread_of_mem _ _ k v hkeys hmem
  · intro habs
    rw [withId, Fields.get_spread_of_absent _ _ "id" habs]
    rfl

/-! ## Roles, start-up and listeners: what holds -/

/-- The test `hasRole('utilisateur')` is true exactly when a truthy role is stored. -/
theorem hasRole_utilisateur (a : AppState) :
    hasRole a (some (JsValue.str "utilisateur")) = truthy a.userRole := by
  by_cases hadmin : a.userRole = some (JsValue.str "admin")
  · simp [hasRole, hadmin, truthy, JsValue.truthy]
  · simp [hasRole, hadmin]

/-- While `initializationPromise` holds a promise, pending or settled,
`initFirebase` returns it and changes nothing. -/
theorem initFirebase_of_promise (useEmulators : Bool) (s : FirebaseState) (p : Nat)
    (hp : s.initializationPromise = some p) :
    initFirebase useEmulators s = (p, s) := by
  simp [initFirebase, hp]

/-- With no promise stored and Firebase not initialized,
`ensureFirebaseInitialized` issues one configuration request and returns a
new pending promise. -/
theorem ensureFirebaseInitialized_first (useEmulators : Bool) (s : FirebaseState)
    (hinit : s.firebaseInitialized = false) (hp : s.initializationPromise = none) :
    (ensureFirebaseInitialized useEmulators s).1 = some s.promises.length ∧
    (ensureFirebaseInitialized useEmulators s).2.configRequests
      = s.configRequests ++ [useEmulators] ∧
    (ensureFirebaseInitialized useEmulators s).2.promises
      = s.promises ++ [PromiseStatus.pending] := by
  simp [ensureFirebaseInitialized, initFirebase, hinit, hp]

/-- The three-argument form of `listenToCollection` subscribes to the query
the query function returns, and the snapshot handler calls the callback once,
with the `{ id, ...data }` objects. -/
theorem listenToCollection_three_arguments (db : Firestore) (returnsQuery : Nat → Bool)
    (collection : String) (f g : Nat) (docs : List DocumentSnapshot)
    (hf : returnsQuery f = true) :
    (listenToCollection (some db) returnsQuery collection (JsArg.function f)
      (JsArg.function g)).subscription
      = some (Query.refined f (Query.collection collection), JsArg.function g) ∧
    onCollectionSnapshot (JsArg.function g) docs
      = ([(g, CallArg.docs (docs.map withId))], Completion.normal) := by
  simp [listenToCollection, hf, onCollectionSnapshot]

/-! ## The claims -/

/-- C1. Queue capacity invariant.  In every state reachable from page load
(`logQueue` empty, `isConnected = true`, any content of the storage slot) by
any sequence of logging calls, answers of the endpoint, `'online'` and
`'offline'` signals, and runs of `initLogging` and `_processPendingLogs`, the
`logQueue` of the block holds at most `MAX_QUEUE_SIZE = 100` entries.  It is
in fact empty: every statement that would add to it throws before it does. -/
theorem queue_capacity_invariant (slot : Option Stored) (es : List Event) :
    (run (initialState slot) es).logQueue.length ≤ MAX_QUEUE_SIZE ∧
    (run (initialState slot) es).logQueue = [] := by
  have h := (run_untouched es _ (initial_untouched slot)).1.1
  rw [h]
  exact ⟨Nat.zero_le _, rfl⟩

/-- C2 (fails on the code). A drain delivers nothing.  With three entries
left in the storage slot, `_processPendingLogs()` throws a `ReferenceError`:
the merge throws inside the `try` (the `catch` writes a console error and
the slot is kept), then the loop condition throws.  No delivery call is
issued, so none can fail; the queue is empty, not the second and third
entries, and `isConnected` is still true.  The same holds for three entries
logged while the browser was offline and an `'online'` signal after them.
In every state `_processPendingLogs` throws, issues no delivery call and
leaves `logQueue` and `isConnected` as they were. -/
theorem drain_delivers_nothing :
    _processPendingLogs quietHost (initialState (some threeStored))
      = (Completion.thrown "ReferenceError: logQueue is not defined",
         { initialState (some threeStored) with
             console := ["Erreur lors de la récupération des logs stockés:"] }) ∧
    (run (initialState none) threeLoggedOffline).issued = [] ∧
    (run (initialState none) threeLoggedOffline).logQueue = [] ∧
    (run (initialState none) threeLoggedOffline).isConnected = true ∧
    (∀ (h : Host) (s : LogState),
      (_processPendingLogs h s).1
        = Completion.thrown "ReferenceError: logQueue is not defined" ∧
      (_processPendingLogs h s).2.issued = s.issued ∧
      (_processPendingLogs h s).2.logQueue = s.logQueue ∧
      (_processPendingLogs h s).2.isConnected = s.isConnected) := by
  have hu := (run_untouched threeLoggedOffline _ (initial_untouched none)).1
  refine ⟨by decide, hu.2.2.2.2.2.1, hu.1, hu.2.1, ?_⟩
  intro h s
  obtain ⟨h1, slot, console, h2, _⟩ := processPendingLogs_effect h s
  rw [h2] at *
  exact ⟨h1, rfl, rfl, rfl⟩

/-- C3 (fails on the code). A logging call throws.  On a fresh page,
`logInfo('entry', 0)` writes its console line, builds its entry and throws
`ReferenceError: isConnected is not defined` to its caller: `isConnected` is
declared inside the block of lines 10-22 and is out of scope in `_log`.  So
does every call of `logInfo`, `logWarning` and `logError`, with any message
and data, in every state reachable from page load. -/
theorem record_throws_reference_error :
    logInfo quietHost "entry" (some (JsValue.int 0)) (initialState none)
      = (Completion.thrown "ReferenceError: isConnected is not defined",
         { initialState none with
             console := ["[INFO] entry"], created := [(numberedCall 0).entry] }) ∧
    (∀ (slot : Option Stored) (es : List Event) (c : RecordCall),
      (c.call (run (initialState slot) es)).1
        = Completion.thrown "ReferenceError: isConnected is not defined") := by
  refine ⟨by decide, ?_⟩
  intro slot es c
  have hu := (run_untouched es _ (initial_untouched slot)).1
  rw [call_throws c _ hu.2.2.1]
  rfl

/-- C4 (fails on the code). The function `_enqueueLog` adds nothing.  In every
state, `_enqueueLog(e)` throws `ReferenceError: logQueue is not defined` at
its first statement and leaves the state as it was: on the empty queue of a
fresh page the queue stays empty, where the last 100 elements of `q ++ [e]`
are `[e]`.  After the browser has gone offline and 105 distinct entries have
been logged, all 105 entries have been built and the queue is empty, not the
last 100 of them. -/
theorem enqueue_throws_before_push :
    _enqueueLog (numberedCall 0).entry (initialState none)
      = (Completion.thrown "ReferenceError: logQueue is not defined",
         initialState none) ∧
    (∀ (e : LogEntry) (s : LogState),
      _enqueueLog e s
        = (Completion.thrown "ReferenceError: logQueue is not defined", s)) ∧
    (run (initialState none) hundredFiveOffline).logQueue = [] ∧
    (run (initialState none) hundredFiveOffline).created
      = (List.range 105).map fun i => (numberedCall i).entry := by
  refine ⟨rfl, fun _ _ => rfl, ?_, by decide!⟩
  exact (run_untouched hundredFiveOffline _ (initial_untouched none)).1.1

/-- C5 (fails on the code). A recorded entry is lost.  On a fresh page,
`logInfo('entry', 0)` builds its entry and throws: the entry has not been
delivered, no delivery call for it is outstanding, and it is not in the
queue; nothing was evicted either, the `shift()` of `_enqueueLog` being never
reached.  The same holds for every logging call made in a state reachable
from page load, and stays so whatever happens afterwards. -/
theorem recorded_entry_lost :
    (logInfo quietHost "entry" (some (JsValue.int 0)) (initialState none)).2.created
      = [(numberedCall 0).entry] ∧
    (logInfo quietHost "entry" (some (JsValue.int 0)) (initialState none)).2.acked
      = [] ∧
    (logInfo quietHost "entry" (some (JsValue.int 0)) (initialState none)).2.outstanding
      = [] ∧
    (logInfo quietHost "entry" (some (JsValue.int 0)) (initialState none)).2.logQueue
      = [] ∧
    (∀ (slot : Option Stored) (es fs : List Event) (c : RecordCall),
      c.entry ∈ (run (initialState slot) (es ++ Event.record c :: fs)).created ∧
      (run (initialState slot) (es ++ Event.record c :: fs)).acked = [] ∧
      (run (initialState slot) (es ++ Event.record c :: fs)).outstanding = [] ∧
      (run (initialState slot) (es ++ Event.record c :: fs)).logQueue = []) := by
  refine ⟨by decide, by decide, by decide, by decide, ?_⟩
  intro slot es fs c
  have hu := run_untouched (es ++ Event.record c :: fs) _ (initial_untouched slot)
  refine ⟨?_, hu.1.2.2.2.2.2.2, hu.1.2.2.2.2.1, hu.1.1⟩
  rw [run_append, run_cons]
  have h1 := (run_untouched es _ (initial_untouched slot)).1
  have h2 := step_untouched _ (Event.record c) h1
  obtain ⟨l, hl⟩ := (run_untouched fs _ h2.1).2.2
  rw [hl]
  apply List.mem_append_left
  have hc : (step (run (initialState slot) es) (Event.record c)).created
      = (run (initialState slot) es).created ++ [c.entry] := (call_created c _).1
  rw [hc]
  simp

/-- C6. Reconciliation introduces no duplicates.  For every in-memory queue
and every content of the storage slot (the state `s`), the merge step of
`_processPendingLogs`, its `try` / `catch` statement, appends nothing to the
queue: the first turn of the merge loop throws at `logQueue.indexOf`, before
any `push`.  So no entry of the stored list is appended, equal or not to an
entry of the queue, and every entry occurs in the queue after the merge, and
after the whole of `_processPendingLogs`, as often as before. -/
theorem merge_appends_nothing (h : Host) (s : LogState) :
    (reconcile h s).2.logQueue = s.logQueue ∧
    (_processPendingLogs h s).2.logQueue = s.logQueue ∧
    (∀ a : LogEntry,
      (reconcile h s).2.logQueue.count a = s.logQueue.count a ∧
      (_processPendingLogs h s).2.logQueue.count a = s.logQueue.count a) := by
  obtain ⟨_, slot, console, h2, _⟩ := reconcile_effect h s
  have hq : (reconcile h s).2.logQueue = s.logQueue := by rw [h2]
  have hp : (_processPendingLogs h s).2.logQueue = s.logQueue := by
    rw [processPendingLogs_eq]; exact hq
  refine ⟨hq, hp, fun a => ?_⟩
  rw [hq, hp]
  exact ⟨rfl, rfl⟩

/-- C7 (fails on the code). The startup merge moves nothing.  When
`initLogging` runs on a fresh page whose storage slot holds the serialization
of a non-empty list of entries, the merge throws inside the `try` at
`logQueue.indexOf`, the `catch` writes a console error, `removeItem` is
skipped, and the loop condition of `_processPendingLogs` throws out of
`initLogging`: no entry is in the queue, the slot still holds the list, no
listener is registered and no delivery call is issued.  A second
`_processPendingLogs` run does the same. -/
theorem startup_merge_moves_nothing :
    initLogging quietHost (initialState (some (Stored.entries [(numberedCall 1).entry])))
      = (Completion.thrown "ReferenceError: logQueue is not defined",
         { initialState (some (Stored.entries [(numberedCall 1).entry])) with
             console := ["Erreur lors de la récupération des logs stockés:"] }) ∧
    (∀ (h : Host) (a : LogEntry) (L : List LogEntry),
      (initLogging h (initialState (some (Stored.entries (a :: L))))).1
        = Completion.thrown "ReferenceError: logQueue is not defined" ∧
      (initLogging h (initialState (some (Stored.entries (a :: L))))).2.logQueue = [] ∧
      (initLogging h (initialState (some (Stored.entries (a :: L))))).2.slot
        = some (Stored.entries (a :: L)) ∧
      (initLogging h (initialState (some (Stored.entries (a :: L))))).2.listeners = 0 ∧
      (initLogging h (initialState (some (Stored.entries (a :: L))))).2.issued = [] ∧
      (run (initialState (some (Stored.entries (a :: L))))
        [Event.initLogging h, Event.processPendingLogs h]).logQueue = [] ∧
      (run (initialState (some (Stored.entries (a :: L))))
        [Event.initLogging h, Event.processPendingLogs h]).slot
        = some (Stored.entries (a :: L))) := by
  refine ⟨by decide, ?_⟩
  intro h a L
  have key : ∀ console : List String,
      _processPendingLogs h
        { initialState (some (Stored.entries (a :: L))) with console := console }
        = (Completion.thrown "ReferenceError: logQueue is not defined",
           { initialState (some (Stored.entries (a :: L))) with
               console := console ++
                 ["Erreur lors de la récupération des logs stockés:"] }) := by
    intro console
    cases hg : h.getItemThrows <;>
      simp [_processPendingLogs, Js.andThen, reconcile, Js.tryCatch, restoreStored, hg,
        initialState, Stored.entries, logQueueOutOfScope, consoleWrite]
  have hinit : initLogging h (initialState (some (Stored.entries (a :: L))))
      = (Completion.thrown "ReferenceError: logQueue is not defined",
         { initialState (some (Stored.entries (a :: L))) with
             console := ["Erreur lors de la récupération des logs stockés:"] }) := by
    have := key []
    simp only [List.nil_append] at this
    unfold initLogging Js.andThen
    have h0 : ({ initialState (some (Stored.entries (a :: L))) with console := [] }
        : LogState) = initialState (some (Stored.entries (a :: L))) := rfl
    rw [h0] at this
    rw [this]
  have hrun : run (initialState (some (Stored.entries (a :: L))))
      [Event.initLogging h, Event.processPendingLogs h]
      = { initialState (some (Stored.entries (a :: L))) with
            console := ["Erreur lors de la récupération des logs stockés:"] ++
              ["Erreur lors de la récupération des logs stockés:"] } := by
    simp only [run, List.foldl, step]
    rw [hinit]
    simp only []
    rw [key]
  rw [hinit, hrun]
  exact ⟨rfl, rfl, rfl, rfl, rfl, rfl, rfl⟩

/-- C8 (fails on the code). The `'online'` signal finds no listener.  At page
load `initLogging` throws in its first statement, `_processPendingLogs()`,
before the two calls of `addEventListener`: no listener is registered.  When
the browser then goes offline, two entries are logged and the browser comes
back online, both entries have been built, nothing is in the queue, no
global `isConnected` was ever set, and no delivery call is issued.  In every
state reachable from page load the `'online'` signal changes nothing; and
the listener itself, in any state, throws in `_processPendingLogs` without
issuing a delivery call. -/
theorem online_signal_has_no_listener :
    (initLogging quietHost (initialState none)).1
      = Completion.thrown "ReferenceError: logQueue is not defined" ∧
    (run (initialState none) [Event.initLogging quietHost]).listeners = 0 ∧
    (run (initialState none) reconnection).created
      = [(numberedCall 1).entry, (numberedCall 2).entry] ∧
    (run (initialState none) reconnection).logQueue = [] ∧
    (run (initialState none) reconnection).globalIsConnected = none ∧
    (run (initialState none) reconnection).issued = [] ∧
    (∀ (slot : Option Stored) (es : List Event) (h : Host),
      step (run (initialState slot) es) (Event.online h)
        = run (initialState slot) es) ∧
    (∀ (h : Host) (s : LogState),
      (onOnline h s).1 = Completion.thrown "ReferenceError: logQueue is not defined" ∧
      (onOnline h s).2.issued = s.issued ∧
      (onOnline h s).2.logQueue = s.logQueue) := by
  refine ⟨by decide, by decide, by decide, by decide, by decide, by decide, ?_, ?_⟩
  · intro slot es h
    have hu := (run_untouched es _ (initial_untouched slot)).1
    simp [step, hu.2.2.2.1, dispatch]
  · intro h s
    have := onOnline_effect h s
    exact ⟨this.1, this.2.1, this.2.2.1⟩

/-- C9. Nothing is buffered while healthy.  Starting from page load (empty
queue, `isConnected = true`), after each step of every sequence of events, in
particular of every sequence of `logInfo` / `logWarning` / `logError` calls
with an endpoint that always succeeds and no `'offline'` signal, the queue is
empty and `isConnected` is true.  No delivery call is issued along the way:
each logging call throws before it sends or queues anything. -/
theorem nothing_buffered_while_healthy (slot : Option Stored) (es : List Event)
    (k : Nat) :
    (run (initialState slot) (es.take k)).logQueue = [] ∧
    (run (initialState slot) (es.take k)).isConnected = true ∧
    (run (initialState slot) (es.take k)).issued = [] := by
  have hu := (run_untouched (es.take k) _ (initial_untouched slot)).1
  exact ⟨hu.1, hu.2.1, hu.2.2.2.2.2.1⟩

/-- C10 (fails on the code). The exception of a logging call reaches the
caller.  On a fresh page `logError('boom', new Error('x'))` writes the line
`[ERROR] boom`, builds its entry and throws `ReferenceError: isConnected is
not defined` to its caller.  No delivery call was issued, so no failure
handler exists: whatever the endpoint would answer, the queue has length 0,
not 1, and `isConnected` is true, not false. -/
theorem logError_reaches_caller :
    boomCall.call (initialState none)
      = (Completion.thrown "ReferenceError: isConnected is not defined",
         { initialState none with
             console := ["[ERROR] boom"], created := [boomCall.entry] }) ∧
    (run (initialState none) [Event.record boomCall, Event.failure 0]).logQueue.length
      = 0 ∧
    (run (initialState none) [Event.record boomCall, Event.failure 0]).isConnected
      = true ∧
    (run (initialState none) [Event.record boomCall, Event.failure 0]).issued = [] := by
  decide

/-- C11 (fails on the code). The unreadable payload stays in the slot.  A
page finds the text `not json` in the storage slot.  After the reconciliation
step, after the whole of `_processPendingLogs`, and after `initLogging`
followed by a second `_processPendingLogs`, the slot still holds that text. -/
theorem corrupt_payload_stays_in_slot :
    (reconcile quietHost corruptAtStartup).2.slot = some (Stored.corrupt "not json") ∧
    (_processPendingLogs quietHost corruptAtStartup).2.slot
      = some (Stored.corrupt "not json") ∧
    (run corruptAtStartup
      [Event.initLogging quietHost, Event.processPendingLogs quietHost]).slot
      = some (Stored.corrupt "not json") := by
  decide

/-- C11, amended. When the storage slot holds a text that is not valid JSON,
the reconciliation step of `_processPendingLogs` (its `try` / `catch`
statement) returns normally, adds nothing to the queue and writes one console
error; it leaves the slot as it is, so the slot still holds the unreadable
text afterwards.  Nothing else in the state changes. -/
theorem corrupt_payload_adds_nothing (h : Host) (s : LogState) (text : String)
    (hs : s.slot = some (Stored.corrupt text)) :
    reconcile h s
      = (Completion.normal,
         { s with console := s.console ++
             ["Erreur lors de la récupération des logs stockés:"] }) ∧
    (reconcile h s).2.logQueue = s.logQueue ∧
    (reconcile h s).2.slot = some (Stored.corrupt text) := by
  have key : reconcile h s
      = (Completion.normal,
         { s with console := s.console ++
             ["Erreur lors de la récupération des logs stockés:"] }) := by
    cases hg : h.getItemThrows <;>
      simp [reconcile, Js.tryCatch, restoreStored, hg, hs, consoleWrite]
  rw [key]
  exact ⟨rfl, rfl, hs⟩

theorem corrupt_payload_adds_nothing_witness :
    corruptAtStartup.slot = some (Stored.corrupt "not json") ∧
    reconcile quietHost corruptAtStartup
      = (Completion.normal,
         { corruptAtStartup with console := corruptAtStartup.console ++
             ["Erreur lors de la récupération des logs stockés:"] }) ∧
    (reconcile quietHost corruptAtStartup).2.logQueue = corruptAtStartup.logQueue ∧
    (reconcile quietHost corruptAtStartup).2.slot = some (Stored.corrupt "not json") :=
  ⟨rfl, corrupt_payload_adds_nothing quietHost corruptAtStartup "not json" rfl⟩

/-- C12 (fails on the code). A `ReferenceError` escapes on both storage paths.
With or without room in storage, `_enqueueLog(e)` throws at its first
statement, before the `try` block around `setItem`: the entry is not
appended and the exception reaches the caller.  In `_processPendingLogs`, an
exception of `getItem`, `JSON.parse` or `removeItem` is caught by the `catch`
(the `try` / `catch` statement returns normally in every state), but the loop
condition that follows throws, so an exception escapes and the drain loop
does not run. -/
theorem reference_error_escapes_storage_paths :
    (_enqueueLog (numberedCall 0).entry (initialState none)).1
      = Completion.thrown "ReferenceError: logQueue is not defined" ∧
    (_enqueueLog (numberedCall 0).entry (initialState none)).2.logQueue = [] ∧
    _processPendingLogs noStorageHost corruptAtStartup
      = (Completion.thrown "ReferenceError: logQueue is not defined",
         { corruptAtStartup with
             console := ["Erreur lors de la récupération des logs stockés:"] }) ∧
    (_processPendingLogs quietHost corruptAtStartup).1
      = Completion.thrown "ReferenceError: logQueue is not defined" ∧
    (_processPendingLogs removalFailsHost (initialState (some (Stored.entries [])))).1
      = Completion.thrown "ReferenceError: logQueue is not defined" ∧
    (∀ (h : Host) (s : LogState),
      (reconcile h s).1 = Completion.normal ∧
      (_processPendingLogs h s).1
        = Completion.thrown "ReferenceError: logQueue is not defined" ∧
      (_processPendingLogs h s).2.issued = s.issued) := by
  refine ⟨rfl, rfl, by decide, by decide, by decide, ?_⟩
  intro h s
  obtain ⟨h1, slot, console, h2, _⟩ := processPendingLogs_effect h s
  refine ⟨(reconcile_effect h s).1, h1, ?_⟩
  rw [h2]

/-- C13 (fails on the code). The function `_enqueueLog` never writes the slot.
On a fresh page with working storage `_enqueueLog(e)` throws at its first
statement, before `setItem`: the slot is still absent, where the claim has it
hold the serialization of `[e]`.  It is absent as well after the browser has
gone offline and an entry has been logged.  In every state `_enqueueLog`
leaves the slot and the queue as they were; and along every execution from
page load the slot is what the page found, or has been removed: nothing ever
writes it. -/
theorem enqueue_never_writes_slot :
    (_enqueueLog (numberedCall 0).entry (initialState none)).2.slot = none ∧
    (run (initialState none) loggedOffline).slot = none ∧
    (∀ (e : LogEntry) (s : LogState),
      (_enqueueLog e s).2.slot = s.slot ∧ (_enqueueLog e s).2.logQueue = s.logQueue) ∧
    (∀ (slot : Option Stored) (es : List Event),
      (run (initialState slot) es).slot = slot ∨
      (run (initialState slot) es).slot = none) := by
  refine ⟨rfl, by decide, fun _ _ => ⟨rfl, rfl⟩, ?_⟩
  intro slot es
  exact (run_untouched es _ (initial_untouched slot)).2.1

/-- C14. ERROR payload normalization.  The entry object that
`logError(message, error)` builds has level `'ERROR'` and its data is
`{name, message, stack}` of the error when `error` is a native `Error`
object, the given value when `error` is a non-null value that is not an
`Error`, and `null` when `error` is `null` or omitted.  The entry objects
that `logInfo` and `logWarning` build have level `'INFO'` and `'WARNING'` and
as data the value given, whatever it is (an `Error` and `null` included), or
`null` when it is omitted.  Each entry carries the timestamp, URL and user
agent of the host.  This holds in every state: the entry is built before
`_log` evaluates `isConnected`. -/
theorem error_payload_normalization (h : Host) (message : String) (s : LogState)
    (name msg stack : String) (v d : JsValue)
    (hnull : v ≠ JsValue.null)
    (herr : ∀ n m st, v ≠ JsValue.nativeError n m st) :
    (logError h message (some (JsValue.nativeError name msg stack)) s).2.created
      = s.created ++
          [{ level := "ERROR", message := message,
             data := JsValue.object [("name", name), ("message", msg), ("stack", stack)],
             timestamp := h.timestamp, url := h.url, userAgent := h.userAgent }] ∧
    (logError h message (some v) s).2.created
      = s.created ++
          [{ level := "ERROR", message := message, data := v,
             timestamp := h.timestamp, url := h.url, userAgent := h.userAgent }] ∧
    (logError h message (some JsValue.null) s).2.created
      = s.created ++
          [{ level := "ERROR", message := message, data := JsValue.null,
             timestamp := h.timestamp, url := h.url, userAgent := h.userAgent }] ∧
    (logError h message none s).2.created
      = s.created ++
          [{ level := "ERROR", message := message, data := JsValue.null,
             timestamp := h.timestamp, url := h.url, userAgent := h.userAgent }] ∧
    (logInfo h message (some d) s).2.created
      = s.created ++
          [{ level := "INFO", message := message, data := d,
             timestamp := h.timestamp, url := h.url, userAgent := h.userAgent }] ∧
    (logInfo h message none s).2.created
      = s.created ++
          [{ level := "INFO", message := message, data := JsValue.null,
             timestamp := h.timestamp, url := h.url, userAgent := h.userAgent }] ∧
    (logWarning h message (some d) s).2.created
      = s.created ++
          [{ level := "WARNING", message := message, data := d,
             timestamp := h.timestamp, url := h.url, userAgent := h.userAgent }] ∧
    (logWarning h message none s).2.created
      = s.created ++
          [{ level := "WARNING", message := message, data := JsValue.null,
             timestamp := h.timestamp, url := h.url, userAgent := h.userAgent }] := by
  have hv : errorData v = v := by
    cases v with
    | null => exact absurd rfl hnull
    | nativeError n m st => exact absurd rfl (herr n m st)
    | bool b => rfl
    | num n => rfl
    | str t => rfl
    | object fields => rfl
  refine ⟨?_, ?_, ?_, ?_, ?_, ?_, ?_, ?_⟩
  · exact (call_created { fn := LogFunction.logError, host := h, message := message,
                          arg := some (JsValue.nativeError name msg stack) } s).1
  · have hc := (call_created { fn := LogFunction.logError, host := h, message := message,
                               arg := some v } s).1
    simp only [RecordCall.entry, Option.getD_some, hv] at hc
    exact hc
  · exact (call_created { fn := LogFunction.logError, host := h, message := message,
                          arg := some JsValue.null } s).1
  · exact (call_created { fn := LogFunction.logError, host := h, message := message,
                          arg := none } s).1
  · exact (call_created { fn := LogFunction.logInfo, host := h, message := message,
                          arg := some d } s).1
  · exact (call_created { fn := LogFunction.logInfo, host := h, message := message,
                          arg := none } s).1
  · exact (call_created { fn := LogFunction.logWarning, host := h, message := message,
                          arg := some d } s).1
  · exact (call_created { fn := LogFunction.logWarning, host := h, message := message,
                          arg := none } s).1

theorem error_payload_normalization_witness :
    JsValue.str "quota" ≠ JsValue.null ∧
    (∀ n m st, JsValue.str "quota" ≠ JsValue.nativeError n m st) ∧
    (logError quietHost "boom" (some (JsValue.nativeError "Error" "x" "Error: x"))
      (initialState none)).2.created
      = [{ level := "ERROR", message := "boom",
           data := JsValue.object [("name", "Error"), ("message", "x"),
             ("stack", "Error: x")],
           timestamp := "t", url := "u", userAgent := "a" }] ∧
    (logError quietHost "boom" (some (JsValue.str "quota"))
      (initialState none)).2.created
      = [{ level := "ERROR", message := "boom", data := JsValue.str "quota",
           timestamp := "t", url := "u", userAgent := "a" }] ∧
    (logInfo quietHost "boom" (some (JsValue.nativeError "Error" "x" "Error: x"))
      (initialState none)).2.created
      = [{ level := "INFO", message := "boom",
           data := JsValue.nativeError "Error" "x" "Error: x",
           timestamp := "t", url := "u", userAgent := "a" }] ∧
    (logWarning quietHost "boom" none (initialState none)).2.created
      = [{ level := "WARNING", message := "boom", data := JsValue.null,
           timestamp := "t", url := "u", userAgent := "a" }] :=
  have h := error_payload_normalization quietHost "boom" (initialState none)
    "Error" "x" "Error: x" (JsValue.str "quota")
    (JsValue.nativeError "Error" "x" "Error: x")
    (fun hc => JsValue.noConfusion hc)
    (fun _ _ _ hc => JsValue.noConfusion hc)
  ⟨fun hc => JsValue.noConfusion hc, fun _ _ _ hc => JsValue.noConfusion hc,
    (by rw [h.1]; rfl), (by rw [h.2.1]; rfl), (by rw [h.2.2.2.2.1]; rfl),
    (by rw [h.2.2.2.2.2.2.2]; rfl)⟩

/-- C15 (fails on the code). Right after the `onAuthStateChanged` listener has
stored the signed-in user, and before `getUserRole` has stored a role,
`appState.user` is not null and `hasRole('utilisateur')` returns false:
`hasRole` tests `!!userRole`, not the user.  It still returns false when the
role lookup is rejected, or when the user document has no `role` field; it
returns true once a role has been stored. -/
theorem signed_in_user_without_role :
    (authRun authStart [AuthEvent.authStateChanged (some alice)]).app.user
      = some alice ∧
    (authRun authStart [AuthEvent.authStateChanged (some alice)]).app.userRole
      = none ∧
    hasRole (authRun authStart [AuthEvent.authStateChanged (some alice)]).app
      (some (JsValue.str "utilisateur")) = false ∧
    hasRole (authRun authStart [AuthEvent.authStateChanged (some alice),
      AuthEvent.lookupRejected 0]).app (some (JsValue.str "utilisateur")) = false ∧
    hasRole (authRun authStart [AuthEvent.authStateChanged (some alice),
      AuthEvent.lookupFound 0 none]).app (some (JsValue.str "utilisateur")) = false ∧
    hasRole (authRun authStart [AuthEvent.authStateChanged (some alice),
      AuthEvent.lookupMissing 0, AuthEvent.creationDone 0]).app
      (some (JsValue.str "utilisateur")) = true := by
  decide

/-- C16. Admin has access to everything: whenever `appState.userRole` is
`'admin'`, `hasRole(requiredRole)` returns true, for every value of
`requiredRole`: a known role, an unknown one, `null`, or `undefined`. -/
theorem admin_has_every_role (a : AppState) (requiredRole : Option JsValue)
    (hadmin : a.userRole = some (JsValue.str "admin")) :
    hasRole a requiredRole = true := by
  simp [hasRole, hadmin]

theorem admin_has_every_role_witness :
    (authRun authStart [AuthEvent.authStateChanged (some alice),
      AuthEvent.lookupFound 0 (some (JsValue.str "admin"))]).app.userRole
      = some (JsValue.str "admin") ∧
    hasRole (authRun authStart [AuthEvent.authStateChanged (some alice),
      AuthEvent.lookupFound 0 (some (JsValue.str "admin"))]).app none = true ∧
    hasRole (authRun authStart [AuthEvent.authStateChanged (some alice),
      AuthEvent.lookupFound 0 (some (JsValue.str "admin"))]).app
      (some (JsValue.str "inconnu")) = true :=
  ⟨rfl,
    admin_has_every_role _ none rfl,
    admin_has_every_role _ (some (JsValue.str "inconnu")) rfl⟩

/-- C17 (fails on the code). The document `stocks/abc123` exists and its data
has a field `id` with the value `'REF-7'`.  `getDocument('stocks', 'abc123')`
returns `{ id: 'REF-7', nom: 'Projecteur' }`: the spread of the data comes
after `id: doc.id` and overrides it, so the `id` of the result is not the
document's ID.  A document that does not exist gives `null`. -/
theorem getDocument_id_overridden_by_data :
    Firestore.snapshot [docWithIdField] "stocks" "abc123"
      = { id := "abc123", docExists := true, data := docWithIdField.data } ∧
    getDocument (Settled.fulfilled ()) [docWithIdField] none "stocks" "abc123"
      = Settled.fulfilled (some [("id", JsValue.str "REF-7"),
          ("nom", JsValue.str "Projecteur")]) ∧
    Fields.get (withId (Firestore.snapshot [docWithIdField] "stocks" "abc123")) "id"
      ≠ some (JsValue.str "abc123") ∧
    getDocument (Settled.fulfilled ()) [docWithIdField] none "stocks" "zzz"
      = Settled.fulfilled none := by
  decide

/-- C18 (fails on the code). The function `toggleEmulatorMode` throws.  On a
fresh page with working storage, `toggleEmulatorMode(true)` stores `'true'`,
then its `logInfo` throws `ReferenceError: isConnected is not defined`, the
`catch` block calls `logError`, which throws again, and the function throws
instead of returning true.  It throws for every value of `enable`, given or
omitted, whether `setItem` works or not.  The stored value itself makes the
round trip: after `toggleEmulatorMode(enable)` with working storage,
`shouldUseEmulators()` returns true exactly when `enable` is truthy; and
`shouldUseEmulators` never throws and returns true if and only if the stored
value can be read and is exactly `'true'`. -/
theorem toggleEmulatorMode_throws :
    (toggleEmulatorMode quietHost (some (JsValue.bool true)) freshBrowser).1
      = Returned.threw "ReferenceError: isConnected is not defined" ∧
    (toggleEmulatorMode quietHost (some (JsValue.bool true)) freshBrowser).2.emulatorSetting
      = some "true" ∧
    (∀ (h : Host) (enable : Option JsValue),
      (toggleEmulatorMode h enable freshBrowser).1
        = Returned.threw "ReferenceError: isConnected is not defined") ∧
    (∀ enable : Option JsValue,
      shouldUseEmulators quietHost (toggleEmulatorMode quietHost enable freshBrowser).2
        = Returned.value (truthy enable)) ∧
    (∀ (h : Host) (b : Browser),
      shouldUseEmulators h b
        = Returned.value
            (decide (h.getItemThrows = false ∧ b.emulatorSetting = some "true"))) := by
  have hthrow : ∀ (h : Host) (message : String) (arg : Option JsValue) (log : LogState),
      log.globalIsConnected = none →
      (logInfo h message arg log).1
          = Completion.thrown "ReferenceError: isConnected is not defined" ∧
        (logInfo h message arg log).2.globalIsConnected = none ∧
        (logError h message arg log).1
          = Completion.thrown "ReferenceError: isConnected is not defined" := by
    intro h message arg log hg
    have h1 := call_throws { fn := LogFunction.logInfo, host := h, message := message,
                             arg := arg } log hg
    have h2 := call_throws { fn := LogFunction.logError, host := h, message := message,
                             arg := arg } log hg
    simp only [RecordCall.call] at h1 h2
    rw [h1, h2]
    exact ⟨rfl, hg, rfl⟩
  have hfail : ∀ (h : Host) (what : String) (b : Browser),
      b.log.globalIsConnected = none →
      (toggleFailed h what b).1
        = Returned.threw "ReferenceError: isConnected is not defined" := by
    intro h what b hg
    have := (hthrow h "Erreur lors de la configuration du mode émulateur"
      (some (caughtError what)) b.log hg).2.2
    unfold toggleFailed
    rcases hr : logError h "Erreur lors de la configuration du mode émulateur"
      (some (caughtError what)) b.log with ⟨c, log⟩
    rw [hr] at this
    simp only at this
    subst this
    rfl
  refine ⟨by decide, by decide, ?_, ?_, ?_⟩
  · intro h enable
    unfold toggleEmulatorMode
    by_cases hs : h.setItemThrows = true
    · simp only [hs, if_true]
      exact hfail h _ _ rfl
    · simp only [hs]
      have hl := hthrow h
        ("Mode émulateur " ++ (if truthy enable then "activé" else "désactivé")
          ++ ", rafraîchissez la page pour appliquer les changements")
        none (initialState none) rfl
      rcases hr : logInfo h
        ("Mode émulateur " ++ (if truthy enable then "activé" else "désactivé")
          ++ ", rafraîchissez la page pour appliquer les changements")
        none (initialState none) with ⟨c, log⟩
      rw [hr] at hl
      obtain ⟨hl1, hl2, _⟩ := hl
      simp only at hl1 hl2
      subst hl1
      simp only [freshBrowser, hr]
      exact hfail h _ _ hl2
  · intro enable
    have hset : (toggleEmulatorMode quietHost enable freshBrowser).2.emulatorSetting
        = some (if truthy enable then "true" else "false") := by
      unfold toggleEmulatorMode
      simp only [quietHost]
      rcases hr : logInfo
          { getItemThrows := false, setItemThrows := false, removeItemThrows := false,
            timestamp := "t", url := "u", userAgent := "a" }
          ("Mode émulateur " ++ (if truthy enable then "activé" else "désactivé")
            ++ ", rafraîchissez la page pour appliquer les changements")
          none freshBrowser.log with ⟨c, log⟩
      cases c with
      | normal => simp [hr]
      | thrown w =>
        simp only [Bool.false_eq_true, if_false, hr, toggleFailed]
        rcases logError _ "Erreur lors de la configuration du mode émulateur"
          (some (caughtError w)) log with ⟨c2, log2⟩
        cases c2 <;> rfl
    unfold shouldUseEmulators readEmulatorSetting
    rw [hset]
    cases truthy enable <;> simp [quietHost]
  · intro h b
    unfold shouldUseEmulators readEmulatorSetting
    by_cases hg : h.getItemThrows = true
    · simp [hg]
    · by_cases ht : b.emulatorSetting = some "true"
      · simp [hg, ht]
      · by_cases hf : b.emulatorSetting = some "false"
        · simp [hg, hf]
        · simp [hg, ht, hf]

/-- C19 (fails on the code). A first `ensureFirebaseInitialized()` issues the
configuration request, and the request fails: the failure handler calls
`logError`, which throws before `reject()`, so the promise stays pending,
`firebaseInitialized` is false and no request is outstanding.  A second
`ensureFirebaseInitialized()` then issues no request and returns the same
promise, which will never settle: `initializationPromise` is never reset, so
Firebase is not initialized again, neither by this call nor by any later
one.  (While the first request is outstanding, a second `initFirebase()`
returns the same promise and issues nothing.  When the request succeeds
with a complete configuration, `firebaseInitialized` becomes true, but the
`logInfo` of the handler throws, the `logError` of its `catch` throws again,
`'firebase-ready'` is not dispatched and the promise stays pending.) -/
theorem no_retry_after_failed_initialization :
    (firebaseRun firebaseStart
      [FirebaseEvent.ensureFirebaseInitialized false]).configRequests = [false] ∧
    failedStartup.firebaseInitialized = false ∧
    failedStartup.outstanding = [] ∧
    failedStartup.promises = [PromiseStatus.pending] ∧
    failedStartup.initializationPromise = some 0 ∧
    (ensureFirebaseInitialized false failedStartup).1 = some 0 ∧
    (ensureFirebaseInitialized false failedStartup).2 = failedStartup ∧
    (ensureFirebaseInitialized false failedStartup).2.configRequests = [false] ∧
    (firebaseRun failedStartup
      [FirebaseEvent.ensureFirebaseInitialized false,
       FirebaseEvent.initFirebase false,
       FirebaseEvent.ensureFirebaseInitialized true]).configRequests = [false] ∧
    (initFirebase false (firebaseRun firebaseStart
      [FirebaseEvent.ensureFirebaseInitialized false])).1 = 0 ∧
    (initFirebase false (firebaseRun firebaseStart
      [FirebaseEvent.ensureFirebaseInitialized false])).2.configRequests = [false] ∧
    configuredStartup.firebaseInitialized = true ∧
    configuredStartup.promises = [PromiseStatus.pending] ∧
    configuredStartup.dispatched = 0 := by
  decide

/-- C20 (fails on the code). With Firestore initialized,
`listenToCollection('stocks', cb)` is called with a callback function and no
third argument.  `typeof queryFn === 'function'` holds, so the callback is
invoked with the query object, as if it were the query function; what it
returns is not a query, so `query.onSnapshot` throws and nothing is
subscribed.  Had the call subscribed, the snapshot handler would call the
third argument, which is `undefined`. -/
theorem listenToCollection_calls_callback_with_query :
    (listenToCollection (some []) (fun _ => false) "stocks" (JsArg.function 1)
      JsArg.undefined).calls = [(1, CallArg.query (Query.collection "stocks"))] ∧
    (listenToCollection (some []) (fun _ => false) "stocks" (JsArg.function 1)
      JsArg.undefined).subscription = none ∧
    (listenToCollection (some []) (fun _ => false) "stocks" (JsArg.function 1)
      JsArg.undefined).completion
      = Completion.thrown "TypeError: query.onSnapshot is not a function" ∧
    (listenToCollection (some []) (fun _ => true) "stocks" (JsArg.function 1)
      JsArg.undefined).calls = [(1, CallArg.query (Query.collection "stocks"))] ∧
    (listenToCollection (some []) (fun _ => true) "stocks" (JsArg.function 1)
      JsArg.undefined).subscription
      = some (Query.refined 1 (Query.collection "stocks"), JsArg.undefined) ∧
    (onCollectionSnapshot JsArg.undefined []).2
      = Completion.thrown "TypeError: callback is not a function" ∧
    (∀ (db : Firestore) (returnsQuery : Nat → Bool) (collection : String) (f : Nat),
      (listenToCollection (some db) returnsQuery collection (JsArg.function f)
        JsArg.undefined).calls = [(f, CallArg.query (Query.collection collection))]) := by
  refine ⟨by decide, by decide, by decide, by decide, by decide, by decide, ?_⟩
  intro db returnsQuery collection f
  cases hr : returnsQuery f <;> simp [listenToCollection, hr]

/-- C21 (fails on the code). An entry logged while offline is not queued.  At
page load `initLogging` throws before it registers the `'offline'`
listener, so when the browser goes offline nothing records it; the logging
call that follows builds its entry and throws `ReferenceError: isConnected
is not defined`.  No delivery call is issued, but the entry is not appended
to the queue either: the queue is empty.  In every state, reachable or not, a
logging call leaves the queue as it was. -/
theorem offline_record_not_queued :
    ((numberedCall 1).call
      (run (initialState none) [Event.initLogging quietHost, Event.offline])).1
      = Completion.thrown "ReferenceError: isConnected is not defined" ∧
    (run (initialState none) loggedOffline).created = [(numberedCall 1).entry] ∧
    (run (initialState none) loggedOffline).logQueue = [] ∧
    (run (initialState none) loggedOffline).issued = [] ∧
    (run (initialState none) loggedOffline).globalIsConnected = none ∧
    (∀ (c : RecordCall) (s : LogState), (c.call s).2.logQueue = s.logQueue) := by
  refine ⟨by decide, by decide, by decide, by decide, by decide, ?_⟩
  intro c s
  exact (call_created c s).2.1

/-- C22 (fails on the code). No success handler ever runs.  Two entries are
logged on a fresh page; both calls throw before `_sendLogToServer`, so no
delivery call is issued and no handler is created: whatever the endpoint
would answer, nothing is delivered and nothing is drained, and both entries
are gone.  In every state reachable from page load no delivery call is
outstanding and an answer of the endpoint changes nothing.  The handler
itself, in any state, issues no delivery call and leaves the queue as it
was: the drain it would trigger throws at its loop condition. -/
theorem success_handler_never_runs :
    (run (initialState none) failureThenSuccess).created
      = [(numberedCall 1).entry, (numberedCall 2).entry] ∧
    (run (initialState none) failureThenSuccess).issued = [] ∧
    (run (initialState none) failureThenSuccess).acked = [] ∧
    (run (initialState none) failureThenSuccess).logQueue = [] ∧
    (∀ (slot : Option Stored) (es : List Event) (h : Host) (i : Nat),
      (run (initialState slot) es).outstanding = [] ∧
      step (run (initialState slot) es) (Event.success h i)
        = run (initialState slot) es) ∧
    (∀ (h : Host) (i : Nat) (s : LogState),
      (successHandler h i s).2.issued = s.issued ∧
      (successHandler h i s).2.logQueue = s.logQueue) := by
  refine ⟨by decide, by decide, by decide, by decide, ?_, ?_⟩
  · intro slot es h i
    have hu := (run_untouched es _ (initial_untouched slot)).1
    refine ⟨hu.2.2.2.2.1, ?_⟩
    simp [step, successHandler, hu.2.2.2.2.1]
  · intro h i s
    have := successHandler_effect h i s
    exact ⟨this.1, this.2.1⟩

end SigmaBG
